import Mathlib

/-!
Verification of the multi-agent document-processing pipeline.

This file gives a shallow embedding of the core of the system
(classifier, JSON/structured-record extractor, e-mail/correspondence
extractor, router, and the condition-based action-chain engine) and
proves or refutes the behavioural claims about it.

Modelling conventions:
* Python/JSON values are modelled by the inductive type `PyVal`;
  dictionaries are association lists in insertion order (Python ≥ 3.7
  dictionaries preserve insertion order and the source never builds a
  dictionary with duplicate keys).
* Python floats are modelled as exact rationals (`Rat`); the values the
  pipeline manipulates (decimal amounts, comparisons against integer
  thresholds) are all exact in this range.  Non-finite floats are
  outside the model.
* A Python exception is modelled as the `Except.error` case of
  `Except String α`; code that cannot raise is a plain function.
* External library collaborators (the `json` codec, `float()` literal
  parsing, `datetime.strptime`/`fromtimestamp`, the `re` regex engine
  for user-supplied patterns, `hash`) are grouped in the parameter
  record `PyLibs`; theorems are stated for every instantiation, with
  hypotheses pinning down only the library behaviour they need.
* Timestamps (`datetime.now().isoformat()`) are passed in as explicit
  `now` string parameters.
-/

namespace MultiAgent

/-- A Python/JSON value as manipulated by the pipeline. -/
inductive PyVal where
  | str (s : String)
  | int (n : Int)
  | float (q : Rat)
  | bool (b : Bool)
  | none
  | bytes (bs : List Nat)
  | list (xs : List PyVal)
  | dict (kvs : List (String × PyVal))
deriving Repr

/-- First-match lookup in an association list (Python `d[k]` / `k in d`;
the source never builds dictionaries with duplicate keys, so first match
is exact). -/
def dictGet : List (String × PyVal) → String → Option PyVal
  | [], _ => Option.none
  | (k, v) :: rest, key => if k = key then some v else dictGet rest key

/-- Python `k in d` for a dictionary. -/
def dictHas (kvs : List (String × PyVal)) (key : String) : Bool :=
  (dictGet kvs key).isSome

/-- Python `d.get(k, default)`. -/
def dictGetD (kvs : List (String × PyVal)) (key : String) (dflt : PyVal) : PyVal :=
  (dictGet kvs key).getD dflt

/-- Contiguous-sublist test (used for substring and bytes containment). -/
def infixOfB [BEq α] (needle : List α) : List α → Bool
  | [] => needle.isPrefixOf []
  | h :: t => needle.isPrefixOf (h :: t) || infixOfB needle t

/-- Python substring containment `needle in hay` on strings. -/
def strContains (hay needle : String) : Bool :=
  infixOfB needle.data hay.data

/-!
The embedding implements the string primitives it needs (`lower`,
`upper`, `strip`, `split`, `replace`, slicing) by structural recursion
over the character list, mirroring Python's ASCII behaviour on the
ASCII data the pipeline handles.
-/

def charLower (c : Char) : Char :=
  if 'A' ≤ c ∧ c ≤ 'Z' then Char.ofNat (c.toNat + 32) else c

def charUpper (c : Char) : Char :=
  if 'a' ≤ c ∧ c ≤ 'z' then Char.ofNat (c.toNat - 32) else c

/-- Python `str.lower()` (ASCII range). -/
def strLower (s : String) : String := String.mk (s.data.map charLower)

/-- Python `str.upper()` (ASCII range). -/
def strUpper (s : String) : String := String.mk (s.data.map charUpper)

/-- Python `str.strip()`. -/
def strTrim (s : String) : String :=
  String.mk (((s.data.dropWhile Char.isWhitespace).reverse.dropWhile Char.isWhitespace).reverse)

/-- Python slicing `s[:n]` (by characters). -/
def strTake (s : String) (n : Nat) : String := String.mk (s.data.take n)

/-- Python `len(s)` (by characters). -/
def strLen (s : String) : Nat := s.data.length

/-!
Several helpers below recurse with an explicit `fuel` argument so that
they are structurally recursive (hence fully reducible by `rfl` and
`decide`).  String helpers receive fuel above the character count; the
`PyVal` helpers receive `pyFuel`, far above the nesting depth of any
value the pipeline builds, so the out-of-fuel branches are
unreachable (kernel reduction peels only as many fuel steps as the
data actually needs).
-/

def pyFuel : Nat := 1000000

/-- Python `s.split(sep)` for a non-empty separator; each match skips
the separator, each miss shifts by one character. -/
def splitGo (sep : List Char) : Nat → List Char → List Char → List (List Char)
  | 0, _, acc => [acc.reverse]
  | Nat.succ fuel, cs, acc =>
    match cs with
    | [] => [acc.reverse]
    | c :: rest =>
      if sep.isPrefixOf (c :: rest) then
        acc.reverse :: splitGo sep fuel ((c :: rest).drop sep.length) []
      else splitGo sep fuel rest (c :: acc)

def strSplitOn (s sep : String) : List String :=
  match sep.data with
  | [] => [s]
  | s0 :: stail => (splitGo (s0 :: stail) (s.data.length + 1) s.data []).map String.mk

/-- Python `s.replace(pat, rep)` for a non-empty pattern. -/
def replaceGo (pat rep : List Char) : Nat → List Char → List Char
  | 0, cs => cs
  | Nat.succ fuel, cs =>
    match cs with
    | [] => []
    | c :: rest =>
      if pat.isPrefixOf (c :: rest) then
        rep ++ replaceGo pat rep fuel ((c :: rest).drop pat.length)
      else c :: replaceGo pat rep fuel rest

def strReplace (s pat rep : String) : String :=
  match pat.data with
  | [] => s
  | p0 :: ptail => String.mk (replaceGo (p0 :: ptail) rep.data (s.data.length + 1) s.data)

/-- Index of the first occurrence of `needle` in `hay`, if any
(`str.find` with a found result). -/
def findSubIdx : List Char → List Char → Option Nat
  | [], needle => if needle.isEmpty then some 0 else Option.none
  | h :: t, needle =>
    if needle.isPrefixOf (h :: t) then some 0
    else (findSubIdx t needle).map (· + 1)

/-- Python numeric view: `bool` is a subtype of `int` in Python, so
`True` behaves as `1` in arithmetic and comparisons. -/
def pyNum : PyVal → Option Rat
  | .int n => some (n : Rat)
  | .float q => some q
  | .bool b => some (if b then 1 else 0)
  | _ => Option.none

/-- Python `==` on the modelled values (fuelled; the recursion depth is
bounded by the structural size the wrapper `pyEq` supplies): numeric
cross-type equality (`1 == 1.0 == True`), structural equality on
strings/bytes/`None`, element-wise on lists, key-set based on
dictionaries, `False` across unrelated types. -/
def pyEqF : Nat → PyVal → PyVal → Bool
  | 0, _, _ => false
  | Nat.succ fuel, a, b =>
    match a, b with
    | .list xs, .list ys =>
      xs.length == ys.length && (xs.zip ys).all (fun p => pyEqF fuel p.1 p.2)
    | .dict xs, .dict ys =>
      xs.length == ys.length &&
        xs.all (fun kv =>
          match ys.find? (fun p => p.1 == kv.1) with
          | some p => pyEqF fuel kv.2 p.2
          | Option.none => false)
    | _, _ =>
      match pyNum a, pyNum b with
      | some x, some y => x == y
      | _, _ =>
        match a, b with
        | .str s, .str t => s == t
        | .bytes s, .bytes t => s == t
        | .none, .none => true
        | _, _ => false

def pyEq (a b : PyVal) : Bool := pyEqF pyFuel a b

/-- First-difference lexicographic order on byte sequences. -/
def lexLtNat : List Nat → List Nat → Bool
  | [], [] => false
  | [], _ :: _ => true
  | _ :: _, [] => false
  | x :: xs, y :: ys => if x = y then lexLtNat xs ys else decide (x < y)

/-- Python `<` (fuelled like `pyEqF`; by argument swap also `>`);
raises `TypeError` between incomparable types, exactly as the
interpreter does.  For lists, CPython walks to the first pair of
elements that are not `==`-equal and compares those; a strict prefix
compares lengths. -/
def pyLtF : Nat → PyVal → PyVal → Except String Bool
  | 0, _, _ => .error "fuel"
  | Nat.succ fuel, a, b =>
    match a, b with
    | .list xs, .list ys =>
      match xs, ys with
      | [], [] => .ok false
      | [], _ :: _ => .ok true
      | _ :: _, [] => .ok false
      | x :: xs2, y :: ys2 =>
        if pyEq x y then pyLtF fuel (.list xs2) (.list ys2) else pyLtF fuel x y
    | _, _ =>
      match pyNum a, pyNum b with
      | some x, some y => .ok (decide (x < y))
      | _, _ =>
        match a, b with
        | .str s, .str t => .ok (decide (s < t))
        | .bytes s, .bytes t => .ok (lexLtNat s t)
        | _, _ => .error "TypeError: unsupported comparison between instances"

def pyLt (a b : PyVal) : Except String Bool := pyLtF pyFuel a b

/-- Python `a > b`, via the reflected comparison `b < a` (exact for the
built-in types modelled here). -/
def pyGt (a b : PyVal) : Except String Bool := pyLt b a

/-- Python truthiness (`bool(v)`). -/
def pyTruthy : PyVal → Bool
  | .none => false
  | .bool b => b
  | .int n => n != 0
  | .float q => q != 0
  | .str s => s != ""
  | .bytes bs => !bs.isEmpty
  | .list xs => !xs.isEmpty
  | .dict kvs => !kvs.isEmpty

/-- Whether `hasattr(v, "__contains__")` holds, as tested by the
`contains` operator of the condition evaluator. -/
def pyHasContains : PyVal → Bool
  | .str _ | .bytes _ | .list _ | .dict _ => true
  | _ => false

/-- Python membership `needle in container`.  Strings require a string
left operand (else `TypeError`), lists use `==` on elements,
dictionaries test keys, non-containers raise. -/
def pyIn (needle container : PyVal) : Except String Bool :=
  match container with
  | .str s =>
    match needle with
    | .str n => .ok (strContains s n)
    | _ => .error "TypeError: in string requires string as left operand"
  | .bytes bs =>
    match needle with
    | .bytes ns => .ok (infixOfB ns bs)
    | _ => .error "TypeError: a bytes-like object is required"
  | .list xs => .ok (xs.any (fun x => pyEq needle x))
  | .dict kvs =>
    match needle with
    | .list _ | .dict _ => .error "TypeError: unhashable type"
    | _ => .ok (kvs.any (fun kv => pyEq (.str kv.1) needle))
  | _ => .error "TypeError: argument is not iterable"

/-- Python subscription `container[key]` with a string key, as used on
the elements of an `items` list after a membership test.  Only
dictionaries support string subscripts. -/
def pyIndexStr (container : PyVal) (key : String) : Except String PyVal :=
  match container with
  | .dict kvs =>
    match dictGet kvs key with
    | some v => .ok v
    | Option.none => .error "KeyError"
  | _ => .error "TypeError: indices must be integers"

/-- Integer truncation toward zero, Python `int(float)`. -/
def ratTrunc (q : Rat) : Int :=
  if 0 ≤ q then q.floor else -((-q).floor)

/-- Decimal digits of the fractional part `f` (`0 ≤ f < 1`), up to
`fuel` digits.  Python float repr prints at most 17 significant digits;
exact decimals (the only floats the pipeline produces) terminate well
inside the fuel. -/
def fracDigits : Nat → Rat → List Nat
  | 0, _ => []
  | _, 0 => []
  | Nat.succ fuel, f =>
    let f10 := f * 10
    let d := f10.floor
    d.toNat :: fracDigits fuel (f10 - (d : Rat))

/-- Python `str()` of a float value.  Exact decimals print exactly
(`str(1500.0) = "1500.0"`, `str(0.5) = "0.5"`). -/
def floatStr (q : Rat) : String :=
  let sign := if q < 0 then "-" else ""
  let aq := |q|
  let ipart : Nat := aq.floor.toNat
  let ds := fracDigits 17 (aq - (ipart : Rat))
  let frac := if ds.isEmpty then "0" else String.intercalate "" (ds.map toString)
  sign ++ toString ipart ++ "." ++ frac

/-- JSON string escaping as performed by `json.dumps` for the common
characters (quote, backslash, newline, tab, carriage return). -/
def jsonEscapeChar (c : Char) : String :=
  if c = '"' then "\\\""
  else if c = '\\' then "\\\\"
  else if c = '\n' then "\\n"
  else if c = '\t' then "\\t"
  else if c = '\r' then "\\r"
  else String.singleton c

def jsonEscape (s : String) : String :=
  String.intercalate "" (s.data.map jsonEscapeChar)

def hexDigitChar (n : Nat) : Char :=
  if n < 10 then Char.ofNat (48 + n) else Char.ofNat (87 + n)

def byteHex (n : Nat) : String :=
  "\\x" ++ String.singleton (hexDigitChar (n / 16 % 16)) ++ String.singleton (hexDigitChar (n % 16))

/-- Python `repr()` of a value (fuelled like `pyEqF`; single-quoted
strings; used by the extractor only to render offending items inside
anomaly messages). -/
def pyReprF : Nat → PyVal → String
  | 0, _ => ""
  | Nat.succ fuel, v =>
    match v with
    | .str s => "\x27" ++ s ++ "\x27"
    | .int n => toString n
    | .float q => floatStr q
    | .bool b => if b then "True" else "False"
    | .none => "None"
    | .bytes bs => "b\x27" ++ String.intercalate "" (bs.map byteHex) ++ "\x27"
    | .list xs => "[" ++ String.intercalate ", " (xs.map (fun x => pyReprF fuel x)) ++ "]"
    | .dict kvs =>
      "\x7b" ++ String.intercalate ", "
        (kvs.map (fun kv => "\x27" ++ kv.1 ++ "\x27: " ++ pyReprF fuel kv.2)) ++ "\x7d"

def pyRepr (v : PyVal) : String := pyReprF pyFuel v

/-- Python `str()`: identity on strings, `repr` otherwise (the two
agree on numbers, booleans and `None`). -/
def pyStr : PyVal → String
  | .str s => s
  | v => pyRepr v

/-- `json.dumps` with the default separators, keys in insertion order
(fuelled like `pyEqF`).  `json.dumps` raising on non-serialisable
values (bytes nested inside a dictionary input) is outside the model:
it is only applied to JSON-shaped inputs.  -/
def pyDumpsF : Nat → PyVal → String
  | 0, _ => ""
  | Nat.succ fuel, v =>
    match v with
    | .str s => "\"" ++ jsonEscape s ++ "\""
    | .int n => toString n
    | .float q => floatStr q
    | .bool b => if b then "true" else "false"
    | .none => "null"
    | .bytes bs => "b\x27" ++ String.intercalate "" (bs.map byteHex) ++ "\x27"
    | .list xs => "[" ++ String.intercalate ", " (xs.map (fun x => pyDumpsF fuel x)) ++ "]"
    | .dict kvs =>
      "\x7b" ++ String.intercalate ", "
        (kvs.map (fun kv => "\"" ++ jsonEscape kv.1 ++ "\": " ++ pyDumpsF fuel kv.2)) ++ "\x7d"

def pyDumps (v : PyVal) : String := pyDumpsF pyFuel v

/-- External Python library collaborators, passed as parameters of the
embedding.  Theorems quantify over every instantiation and pin down by
hypothesis only the behaviour they rely on. -/
structure PyLibs where
  /-- `json.loads`: `Option.none` models a `JSONDecodeError`. -/
  json_loads : String → Option PyVal
  /-- `float(string)` literal parsing: `Option.none` models `ValueError`. -/
  py_float : String → Option Rat
  /-- `datetime.strptime(value, fmt)` reduced to the parsed
  year/month/day: `Option.none` models `ValueError`. -/
  strptime : String → String → Option (Nat × Nat × Nat)
  /-- `datetime.fromtimestamp` reduced to year/month/day;
  `Option.none` models an out-of-range error. -/
  fromtimestamp : Rat → Option (Nat × Nat × Nat)
  /-- `re.search(pattern, text)` for user-supplied patterns:
  `.error` models a bad pattern. -/
  re_search : String → String → Except String Bool
  /-- Python `hash` of a string (process-seeded). -/
  py_hash : String → Int

namespace JSONAgent

/-- The required fields and accepted currencies of the JSON agent. -/
def valid_currencies : List String := ["USD", "EUR", "GBP", "JPY", "CAD", "AUD"]

/-- `JSONAgent._convert_to_number`: numbers pass through, strings are
stripped of all characters other than digits and `.` and then parsed by
`float()`; any failure yields `0.0`.  Python `bool` is an `int`, so it
takes the numeric branch. -/
def convert_to_number (libs : PyLibs) (v : PyVal) : Rat :=
  match v with
  | .int n => (n : Rat)
  | .float q => q
  | .bool b => if b then 1 else 0
  | .str s =>
    let cleaned := String.mk (s.data.filter (fun c => c.isDigit || c = '.'))
    match libs.py_float cleaned with
    | some q => q
    | Option.none => 0
  | _ => 0

/-- `JSONAgent._convert_to_int`. -/
def convert_to_int (libs : PyLibs) (v : PyVal) : Int :=
  match v with
  | .bool b => if b then 1 else 0
  | .int n => n
  | .float q => ratTrunc q
  | .str s =>
    match libs.py_float s with
    | some q => ratTrunc q
    | Option.none => 0
  | _ => 0

def date_formats : List String :=
  ["%Y-%m-%d", "%Y/%m/%d", "%m/%d/%Y", "%d/%m/%Y",
   "%m-%d-%Y", "%d-%m-%Y", "%B %d, %Y", "%b %d, %Y"]

def pad2 (n : Nat) : String :=
  if n < 10 then "0" ++ toString n else toString n

def pad4 (n : Nat) : String :=
  if n < 10 then "000" ++ toString n
  else if n < 100 then "00" ++ toString n
  else if n < 1000 then "0" ++ toString n
  else toString n

/-- `strftime("%Y-%m-%d")` on a parsed date. -/
def fmtYMD : Nat × Nat × Nat → String
  | (y, m, d) => pad4 y ++ "-" ++ pad2 m ++ "-" ++ pad2 d

def firstParse (libs : PyLibs) (s : String) : List String → Option (Nat × Nat × Nat)
  | [] => Option.none
  | f :: rest =>
    match libs.strptime s f with
    | some d => some d
    | Option.none => firstParse libs s rest

/-- `JSONAgent._format_date`: try the format list in order and
normalise to `YYYY-MM-DD`; if none parses, the source then tests the
ISO-shape regex and returns `date_value` unchanged in both that branch
and the final fallthrough, so the two collapse.  Numeric values are
treated as timestamps (a `fromtimestamp` failure falls back to
`str(date_value)`); anything else is stringified. -/
def format_date (libs : PyLibs) (v : PyVal) : String :=
  match v with
  | .str s =>
    match firstParse libs s date_formats with
    | some d => fmtYMD d
    | Option.none => s
  | .int n =>
    match libs.fromtimestamp (n : Rat) with
    | some d => fmtYMD d
    | Option.none => pyStr (.int n)
  | .float q =>
    match libs.fromtimestamp q with
    | some d => fmtYMD d
    | Option.none => pyStr (.float q)
  | .bool b =>
    match libs.fromtimestamp (if b then 1 else 0) with
    | some d => fmtYMD d
    | Option.none => pyStr (.bool b)
  | other => pyStr other

/-- The five anomaly strings of the `total_amount` logic. -/
def missing_total : String := "Missing required field: total_amount"

def map_amount : String := "Field mapping: \x27amount\x27 used instead of \x27total_amount\x27"

def map_total : String := "Field mapping: \x27total\x27 used instead of \x27total_amount\x27"

def type_error_total : String := "Type error: total_amount is not a valid number"

def negative_total : String := "Suspicious value: negative total_amount"

/-- `order_id` mapping: canonical key, then aliases `id` and
`order_number`, else a missing-field anomaly. -/
def order_id_part (j : List (String × PyVal)) : PyVal × List String :=
  match dictGet j "order_id" with
  | some v => (.str (pyStr v), [])
  | Option.none =>
    match dictGet j "id" with
    | some v => (.str (pyStr v), ["Field mapping: \x27id\x27 used instead of \x27order_id\x27"])
    | Option.none =>
      match dictGet j "order_number" with
      | some v => (.str (pyStr v), ["Field mapping: \x27order_number\x27 used instead of \x27order_id\x27"])
      | Option.none => (.none, ["Missing required field: order_id"])

/-- `customer` mapping: canonical key, then aliases `customer_name` and
`name`. -/
def customer_part (j : List (String × PyVal)) : PyVal × List String :=
  match dictGet j "customer" with
  | some v => (.str (pyStr v), [])
  | Option.none =>
    match dictGet j "customer_name" with
    | some v => (.str (pyStr v), ["Field mapping: \x27customer_name\x27 used instead of \x27customer\x27"])
    | Option.none =>
      match dictGet j "name" with
      | some v => (.str (pyStr v), ["Field mapping: \x27name\x27 used instead of \x27customer\x27"])
      | Option.none => (.none, ["Missing required field: customer"])

/-- First field of `["items","products","line_items","order_items"]`
whose value is a list (a present key with a non-list value is skipped,
exactly as in the source loop). -/
def items_source (j : List (String × PyVal)) : List String → Option (String × List PyVal)
  | [] => Option.none
  | f :: rest =>
    match dictGet j f with
    | some (.list xs) => some (f, xs)
    | _ => items_source j rest

def items_fields : List String := ["items", "products", "line_items", "order_items"]

/-- The SKU half of the per-item extraction.  The membership tests
`"sku" in item` are Python `in`, which raises `TypeError` when the item
is not a container, and string/list items that pass the membership test
fail at the `item["sku"]` subscription — both modelled by `Except`. -/
def item_sku (item : PyVal) : Except String (String × List String) := do
  let b ← pyIn (.str "sku") item
  if b then do
    let v ← pyIndexStr item "sku"
    pure (pyStr v, ([] : List String))
  else do
    let b2 ← pyIn (.str "id") item
    if b2 then do
      let v ← pyIndexStr item "id"
      pure (pyStr v, ["Item field mapping: \x27id\x27 used instead of \x27sku\x27"])
    else do
      let b3 ← pyIn (.str "product_id") item
      if b3 then do
        let v ← pyIndexStr item "product_id"
        pure (pyStr v, ["Item field mapping: \x27product_id\x27 used instead of \x27sku\x27"])
      else
        pure ("", ["Missing SKU in item: " ++ pyStr item])

/-- The quantity half of the per-item extraction. -/
def item_qty (libs : PyLibs) (item : PyVal) : Except String (Int × List String) := do
  let b ← pyIn (.str "qty") item
  if b then do
    let v ← pyIndexStr item "qty"
    pure (convert_to_int libs v, ([] : List String))
  else do
    let b2 ← pyIn (.str "quantity") item
    if b2 then do
      let v ← pyIndexStr item "quantity"
      pure (convert_to_int libs v, ["Item field mapping: \x27quantity\x27 used instead of \x27qty\x27"])
    else do
      let b3 ← pyIn (.str "amount") item
      if b3 then do
        let v ← pyIndexStr item "amount"
        pure (convert_to_int libs v, ["Item field mapping: \x27amount\x27 used instead of \x27qty\x27"])
      else
        pure (0, ["Missing quantity in item: " ++ pyStr item])

/-- Per-item extraction: the `{"sku": ..., "qty": ...}` record plus
the anomalies of both halves, in source order. -/
def extract_item (libs : PyLibs) (item : PyVal) : Except String (PyVal × List String) := do
  let skuPart ← item_sku item
  let qtyPart ← item_qty libs item
  pure (.dict [("sku", .str skuPart.1), ("qty", .int qtyPart.1)], skuPart.2 ++ qtyPart.2)

def extract_items (libs : PyLibs) : List PyVal → Except String (List PyVal × List String)
  | [] => .ok ([], [])
  | it :: rest => do
    let (fi, a) ← extract_item libs it
    let (fis, rest_a) ← extract_items libs rest
    .ok (fi :: fis, a ++ rest_a)

/-- `items` mapping: result items, the `items_found` flag, and the
anomalies collected while walking the chosen list. -/
def items_part (libs : PyLibs) (j : List (String × PyVal)) :
    Except String (List PyVal × Bool × List String) :=
  match items_source j items_fields with
  | some (f, xs) => do
    let aliasAnoms : List String :=
      if f = "items" then [] else ["Field mapping: \x27" ++ f ++ "\x27 used instead of \x27items\x27"]
    let (fitems, ia) ← extract_items libs xs
    .ok (fitems, true, aliasAnoms ++ ia)
  | Option.none => .ok ([], false, ["Missing required field: items"])

/-- `total_amount` mapping: canonical key, then aliases `amount` and
`total`, coerced by `_convert_to_number`; else `None` plus the
missing-field anomaly. -/
def total_part (libs : PyLibs) (j : List (String × PyVal)) : PyVal × List String :=
  match dictGet j "total_amount" with
  | some v => (.float (convert_to_number libs v), [])
  | Option.none =>
    match dictGet j "amount" with
    | some v => (.float (convert_to_number libs v), [map_amount])
    | Option.none =>
      match dictGet j "total" with
      | some v => (.float (convert_to_number libs v), [map_total])
      | Option.none => (.none, [missing_total])

/-- `currency` mapping: upper-cased and checked against the accepted
set; alias `currency_code`; entirely absent falls back to `"USD"`. -/
def currency_part (j : List (String × PyVal)) : PyVal × List String :=
  match dictGet j "currency" with
  | some v =>
    let c := strUpper (pyStr v)
    (.str c, if c ∈ valid_currencies then [] else ["Unknown currency: " ++ c])
  | Option.none =>
    match dictGet j "currency_code" with
    | some v =>
      let c := strUpper (pyStr v)
      (.str c,
        "Field mapping: \x27currency_code\x27 used instead of \x27currency\x27" ::
          (if c ∈ valid_currencies then [] else ["Unknown currency: " ++ c]))
    | Option.none => (.str "USD", ["Missing required field: currency"])

/-- `delivery_date` mapping: canonical key, alias `date`, then the
nested `delivery.date` shape. -/
def date_part (libs : PyLibs) (j : List (String × PyVal)) : PyVal × List String :=
  match dictGet j "delivery_date" with
  | some v => (.str (format_date libs v), [])
  | Option.none =>
    match dictGet j "date" with
    | some v => (.str (format_date libs v), ["Field mapping: \x27date\x27 used instead of \x27delivery_date\x27"])
    | Option.none =>
      match dictGet j "delivery" with
      | some (.dict dkvs) =>
        match dictGet dkvs "date" with
        | some d => (.str (format_date libs d), ["Field mapping: \x27delivery.date\x27 used instead of \x27delivery_date\x27"])
        | Option.none => (.none, ["Missing required field: delivery_date"])
      | _ => (.none, ["Missing required field: delivery_date"])

/-- `float(v)` coercion used by the type check (numbers coerce, strings
go through `float()` parsing, anything else is a `TypeError`). -/
def float_coerce (libs : PyLibs) : PyVal → Option Rat
  | .int n => some (n : Rat)
  | .float q => some q
  | .bool b => some (if b then 1 else 0)
  | .str s => libs.py_float s
  | _ => Option.none

/-- The `# Check for type errors` block: skipped when `total_amount` is
`None`; otherwise a failing `float()` coercion records the type-error
anomaly and resets the value to `0.0`. -/
def type_check_total (libs : PyLibs) (t : PyVal) : PyVal × List String :=
  match t with
  | .none => (.none, [])
  | v =>
    match float_coerce libs v with
    | some _ => (v, [])
    | Option.none => (.float 0, [type_error_total])

/-- The negative-total suspicious-value check.  At this point the value
is `None` or a float produced by `_convert_to_number`; other
constructors are unreachable. -/
def suspicious_total : PyVal → List String
  | .float q => if q < 0 then [negative_total] else []
  | _ => []

/-- `JSONAgent.map_to_flowbit_schema`, anomalies in source append
order. -/
def map_to_flowbit_schema (libs : PyLibs) (j : List (String × PyVal)) :
    Except String (List (String × PyVal) × List String) := do
  let (oid, a1) := order_id_part j
  let (cust, a2) := customer_part j
  let (fitems, found, a3) ← items_part libs j
  let (tval, a4) := total_part libs j
  let (curr, a5) := currency_part j
  let (dd, a6) := date_part libs j
  let (tval2, a7) := type_check_total libs tval
  let a8 := suspicious_total tval2
  let a9 : List String := if fitems.isEmpty && found then ["Suspicious value: empty items array"] else []
  .ok ([("order_id", oid), ("customer", cust), ("items", .list fitems),
        ("total_amount", tval2), ("currency", curr), ("delivery_date", dd)],
       a1 ++ a2 ++ a3 ++ a4 ++ a5 ++ a6 ++ a7 ++ a8 ++ a9)

/-- The second half of `JSONAgent.process` after decoding: the
not-a-JSON-object rejection, then schema mapping. -/
def process_decoded (libs : PyLibs) (v : PyVal) (now : String) :
    Except String PyVal :=
  match v with
  | .dict kvs => do
    let (fb, anoms) ← map_to_flowbit_schema libs kvs
    .ok (.dict [("flowbit_data", .dict fb),
                ("anomalies", .list (anoms.map PyVal.str)),
                ("is_valid", .bool anoms.isEmpty),
                ("processed_at", .str now)])
  | _ =>
    .ok (.dict [("flowbit_data", .dict []),
                ("anomalies", .list [.str "Input is not a valid JSON object"]),
                ("is_valid", .bool false)])

/-- `JSONAgent.process`.  String inputs go through `json.loads` (a
decode failure returns the fixed invalid-JSON result); everything else
continues to `process_decoded`.  The anomaly-alert logging is a
print/persistence side effect (and the agent the router constructs
carries no memory store), so it does not appear in the pure result. -/
def process (libs : PyLibs) (json_data : PyVal) (now : String) :
    Except String PyVal :=
  match json_data with
  | .str s =>
    match libs.json_loads s with
    | some v => process_decoded libs v now
    | Option.none =>
      .ok (.dict [("flowbit_data", .dict []),
                  ("anomalies", .list [.str "Invalid JSON format"]),
                  ("is_valid", .bool false)])
  | v => process_decoded libs v now

end JSONAgent

/-- Number of keywords of `kws` contained in `text` (the `score += 1`
per containment hit pattern shared by all the keyword scorers). -/
def keyword_hits (text : String) (kws : List String) : Nat :=
  (kws.filter (fun k => strContains text (strLower k))).length

/-- `max(scores.values())` over a non-empty score table (0 on empty,
matching the sources' guarded `max`). -/
def max_score (xs : List (String × Nat)) : Nat :=
  xs.foldl (fun a p => max a p.2) 0

/-- Python `max(items, key=score)[0]`: the first key with the maximal
score, in insertion order. -/
def pick_max_first (xs : List (String × Nat)) (dflt : String) : String :=
  match xs.find? (fun p => p.2 = max_score xs) with
  | some p => p.1
  | Option.none => dflt

namespace EmailAgent

def tone_indicators : List (String × List String) :=
  [("escalation",
    ["escalate", "urgent", "immediately", "asap", "emergency", "critical",
     "deadline", "urgent attention", "priority", "expedite", "promptly"]),
   ("threatening",
    ["lawyer", "legal action", "sue", "complaint", "demand", "dissatisfied",
     "disappointed", "unacceptable", "compensation", "refund", "consequences"]),
   ("polite",
    ["please", "thank you", "appreciate", "grateful", "kindly", "regards",
     "sincerely", "respectfully", "consideration"]),
   ("neutral",
    ["inform", "update", "inquiry", "question", "wondering", "information",
     "request", "seeking", "details"])]

def urgency_high : List String :=
  ["urgent", "asap", "immediately", "emergency", "critical", "deadline",
   "today", "now", "expedite", "promptly", "high priority"]

def urgency_medium : List String :=
  ["soon", "important", "attention", "priority", "followup", "timely",
   "quick", "next day", "48 hours"]

def issue_types : List (String × List String) :=
  [("Technical Support",
    ["error", "bug", "issue", "problem", "not working", "broken", "crash",
     "technical", "support", "troubleshoot", "help me"]),
   ("Billing Inquiry",
    ["invoice", "payment", "bill", "charge", "subscription", "price",
     "billing", "transaction", "refund", "credit", "debit"]),
   ("Feature Request",
    ["feature", "enhancement", "improvement", "suggest", "add capability",
     "would like to see", "missing functionality", "update with"]),
   ("Account Management",
    ["account", "login", "password", "access", "user", "profile", "settings",
     "permissions", "security", "verification", "authentication"]),
   ("General Inquiry",
    ["question", "inquiry", "information", "details", "how to", "where is",
     "when will", "what is", "wondering"]),
   ("Complaint",
    ["complaint", "dissatisfied", "unhappy", "disappointed", "poor service",
     "not acceptable", "bad experience", "terrible", "awful"])]

/-- Characters after the first occurrence of `marker`. -/
def afterMarker (content marker : String) : Option (List Char) :=
  (findSubIdx content.data marker.data).map
    (fun i => content.data.drop (i + marker.data.length))

/-- The header-line regex `Marker:\s*(.*?)(?:\n|$)` with `.strip()` on
the captured group: skip the whitespace after the marker (the greedy
`\s*`), capture up to the next newline or end, strip. -/
def header_line (content marker : String) : Option String :=
  (afterMarker content marker).map
    (fun cs => strTrim (String.mk ((cs.dropWhile Char.isWhitespace).takeWhile (· ≠ '\n'))))

/-- The `(.*?)\s*<([^>]+)>` shape: the part before the first
properly-closed non-empty `<...>` group, and the group contents.  (The
lazy prefix and the `\s*` differ only in trailing whitespace, which the
caller strips away.) -/
def angle_match : List Char → Option (List Char × List Char)
  | [] => Option.none
  | c :: rest =>
    if c = '<' then
      let inside := rest.takeWhile (· ≠ '>')
      if inside.isEmpty || rest.dropWhile (· ≠ '>') = [] then
        (angle_match rest).map (fun p => (c :: p.1, p.2))
      else some ([], inside)
    else (angle_match rest).map (fun p => (c :: p.1, p.2))

/-- Character class `[\w\.-]` of the bare-address pattern. -/
def isWordCh (c : Char) : Bool :=
  c.isAlphanum || c = '_' || c = '.' || c = '-'

/-- One attempt of `[\w\.-]+@[\w\.-]+` at the head of the list.
Because `@` is not in the class, the greedy first run can only be the
maximal word-character run. -/
def email_at (cs : List Char) : Option (List Char) :=
  let run := cs.takeWhile isWordCh
  if run.isEmpty then Option.none
  else
    match cs.drop run.length with
    | '@' :: r2 =>
      let run2 := r2.takeWhile isWordCh
      if run2.isEmpty then Option.none else some (run ++ '@' :: run2)
    | _ => Option.none

/-- Leftmost match of the bare-address pattern (`re.search`). -/
def find_email : List Char → Option (List Char)
  | [] => Option.none
  | c :: rest =>
    match email_at (c :: rest) with
    | some m => some m
    | Option.none => find_email rest

/-- `EmailParserAgent._extract_sender`. -/
def extract_sender (content : String) : String × String :=
  match header_line content "From:" with
  | Option.none => ("Unknown", "unknown@example.com")
  | some from_line =>
    match angle_match from_line.data with
    | some (before, inside) => (strTrim (String.mk before), strTrim (String.mk inside))
    | Option.none =>
      match find_email from_line.data with
      | some em =>
        let email := String.mk em
        let name := strTrim (strReplace from_line email "")
        if name = "" then ((strSplitOn email "@").headD email, email)
        else (name, email)
      | Option.none => (from_line, "unknown@example.com")

/-- `EmailParserAgent._extract_subject`. -/
def extract_subject (content : String) : String :=
  (header_line content "Subject:").getD "No Subject"

/-- `str.split(sep, 1)` when the separator occurs. -/
def splitOnce (s sep : String) : Option (String × String) :=
  (findSubIdx s.data sep.data).map
    (fun i => (String.mk (s.data.take i), String.mk (s.data.drop (i + sep.data.length))))

/-- `EmailParserAgent._extract_body`: text after the first blank line;
else everything after the `Subject:` line; else the whole content —
each stripped. -/
def extract_body (content : String) : String :=
  match splitOnce content "\n\n" with
  | some p => strTrim p.2
  | Option.none =>
    match findSubIdx content.data "Subject:".data with
    | some p =>
      let after := content.data.drop p
      if (after.dropWhile (· ≠ '\n')).isEmpty then strTrim content
      else strTrim (String.mk (after.dropWhile (· ≠ '\n')))
    | Option.none => strTrim content

/-- `EmailParserAgent._determine_urgency`: first urgency level (High,
then Medium) with any keyword hit in subject+body; default Low. -/
def determine_urgency (subject body : String) : String :=
  let combined := strLower (subject ++ " " ++ body)
  if urgency_high.any (fun k => strContains combined (strLower k)) then "High"
  else if urgency_medium.any (fun k => strContains combined (strLower k)) then "Medium"
  else "Low"

def tone_priority : List String := ["threatening", "escalation", "polite", "neutral"]

/-- `EmailParserAgent._determine_tone`: keyword-hit scores over the
body; zero everywhere gives neutral; otherwise the first tone of the
fixed priority order among the maximal scorers (the source always takes
this loop — it runs even without a tie — so its final `max(...)`
fallback is dead). -/
def determine_tone (body : String) : String :=
  let bl := strLower body
  let scores := tone_indicators.map (fun p => (p.1, keyword_hits bl p.2))
  let mx := max_score scores
  if mx = 0 then "neutral"
  else
    let maxTones := (scores.filter (fun p => p.2 = mx)).map (fun p => p.1)
    match tone_priority.find? (fun t => maxTones.contains t) with
    | some t => t
    | Option.none => pick_max_first scores "neutral"

/-- `EmailParserAgent._determine_issue_type`: keyword-hit scores over
subject+body; all-zero defaults to General Inquiry, otherwise the first
maximal scorer in table order. -/
def determine_issue_type (subject body : String) : String :=
  let combined := strLower (subject ++ " " ++ body)
  let scores := issue_types.map (fun p => (p.1, keyword_hits combined p.2))
  if max_score scores = 0 then "General Inquiry"
  else pick_max_first scores "General Inquiry"

/-- The structured e-mail data assembled by `parse_email`. -/
structure EmailData where
  sender_name : String
  sender_email : String
  subject : String
  urgency : String
  tone : String
  issue_type : String
  body_snippet : String
  parsed_at : String
  action_taken : PyVal

/-- The e-mail data dictionary before `action_taken` is added (the
shape that `_trigger_action` receives and `_notify_crm` hashes). -/
def email_base_py (sender_name sender_email subject urgency tone issue_type body_snippet parsed_at : String) : PyVal :=
  .dict [("sender_name", .str sender_name), ("sender_email", .str sender_email),
         ("subject", .str subject), ("urgency", .str urgency), ("tone", .str tone),
         ("issue_type", .str issue_type), ("body_snippet", .str body_snippet),
         ("parsed_at", .str parsed_at)]

/-- `EmailParserAgent._notify_crm` (simulated CRM call). -/
def notify_crm (libs : PyLibs) (sender_name sender_email subject urgency tone issue_type body_snippet parsed_at now : String) : PyVal :=
  let base := email_base_py sender_name sender_email subject urgency tone issue_type body_snippet parsed_at
  let ticket := (libs.py_hash (pyStr base)).emod 10000
  .dict [("action", .str "crm_notification"),
         ("success", .bool true),
         ("crm_ticket_id", .str ("CRM-" ++ JSONAgent.pad4 ticket.toNat)),
         ("requires_followup", .bool true),
         ("assigned_to", .str "Customer Relations Team"),
         ("status", .str "Simulated - No actual API calls made"),
         ("payload", .dict
           [("customer", .dict [("name", .str sender_name), ("email", .str sender_email)]),
            ("issue", .dict [("type", .str issue_type), ("urgency", .str urgency),
                             ("subject", .str subject), ("description", .str (strTake body_snippet 200))]),
            ("metadata", .dict [("source", .str "email"), ("tone", .str tone),
                                ("requires_immediate_attention",
                                 .bool (urgency == "High" || tone == "escalation" || tone == "threatening")),
                                ("timestamp", .str now)])])]

/-- `EmailParserAgent._trigger_action`. -/
def trigger_action (libs : PyLibs) (sender_name sender_email subject urgency tone issue_type body_snippet parsed_at now : String) : PyVal :=
  if urgency == "High" || tone == "escalation" || tone == "threatening" then
    notify_crm libs sender_name sender_email subject urgency tone issue_type body_snippet parsed_at now
  else if issue_type == "Technical Support" then
    .dict [("action", .str "support_ticket_created"),
           ("priority", .str (if urgency == "Medium" then "Medium" else "Low")),
           ("department", .str "Technical Support"),
           ("status", .str "Simulated - No actual API calls made")]
  else if issue_type == "Billing Inquiry" then
    .dict [("action", .str "billing_department_routed"),
           ("priority", .str urgency),
           ("followup_required", .bool (urgency != "Low")),
           ("status", .str "Simulated - No actual API calls made")]
  else
    .dict [("action", .str "logged_and_closed"),
           ("priority", .str "Low"),
           ("auto_response", .bool true),
           ("status", .str "Simulated - No actual API calls made")]

/-- `EmailParserAgent.parse_email`. -/
def parse_email (libs : PyLibs) (content now : String) : EmailData :=
  let se := extract_sender content
  let subject := extract_subject content
  let body := extract_body content
  let urgency := determine_urgency subject body
  let tone := determine_tone body
  let issue_type := determine_issue_type subject body
  let snippet := if strLen body > 200 then strTake body 200 ++ "..." else body
  { sender_name := se.1, sender_email := se.2, subject := subject,
    urgency := urgency, tone := tone, issue_type := issue_type,
    body_snippet := snippet, parsed_at := now,
    action_taken := trigger_action libs se.1 se.2 subject urgency tone issue_type snippet now now }

/-- The full dictionary returned by `parse_email`. -/
def emailDataToPy (e : EmailData) : PyVal :=
  .dict [("sender_name", .str e.sender_name), ("sender_email", .str e.sender_email),
         ("subject", .str e.subject), ("urgency", .str e.urgency), ("tone", .str e.tone),
         ("issue_type", .str e.issue_type), ("body_snippet", .str e.body_snippet),
         ("parsed_at", .str e.parsed_at), ("action_taken", e.action_taken)]

end EmailAgent

namespace Classifier

/-- The intent schemas of `ClassifierAgent.__init__`, in insertion
order: `(intent, keywords, json_fields)`. -/
def intent_schemas : List (String × List String × List String) :=
  [("Invoice",
    ["invoice", "payment", "bill", "receipt", "transaction", "paid", "amount due"],
    ["invoice_number", "amount", "total", "payment", "due_date"]),
   ("RFQ",
    ["quote", "rfq", "request for quote", "quotation", "estimate", "pricing"],
    ["quote_number", "request_id", "estimate"]),
   ("Complaint",
    ["complaint", "issue", "problem", "defect", "unsatisfied", "disappointed", "refund"],
    ["complaint_id", "issue", "problem"]),
   ("Regulation",
    ["regulation", "compliance", "law", "legal", "requirement", "guideline", "policy"],
    ["regulation_id", "compliance", "policy_number"]),
   ("Fraud Risk",
    ["suspicious", "fraud", "unusual", "unauthorized", "anomaly", "scam", "fake"],
    ["risk_score", "fraud_indicators", "suspicious_activity"])]

/-- The magic-byte prefixes of the PDF format examples
(`b"%PDF-1.4\n"` and `b"%PDF"`). -/
def pdf_sigs : List (List Nat) :=
  [[37, 80, 68, 70, 45, 49, 46, 52, 10], [37, 80, 68, 70]]

/-- The correspondence header markers tested on string inputs. -/
def email_markers : List String := ["From:", "To:", "Subject:", "@"]

/-- `ClassifierAgent._determine_format`.  (The source tests the same
four markers once per e-mail example; the loop body does not use the
example, so the two iterations collapse to one `any`.) -/
def determine_format (libs : PyLibs) : PyVal → String
  | .bytes bs => if pdf_sigs.any (fun sig => sig.isPrefixOf bs) then "PDF" else "Unknown"
  | .dict _ => "JSON"
  | .str s =>
    if (libs.json_loads s).isSome then "JSON"
    else if email_markers.any (fun m => strContains s m) then "Email"
    else "Unknown"
  | _ => "Unknown"

/-- `dict.update` on an insertion-ordered association list: existing
keys are overwritten in place, new keys appended. -/
def upsert (acc : List (String × PyVal)) (k : String) (v : PyVal) : List (String × PyVal) :=
  if acc.any (fun kv => kv.1 = k) then
    acc.map (fun kv => if kv.1 = k then (k, v) else kv)
  else acc ++ [(k, v)]

def dict_update (acc add : List (String × PyVal)) : List (String × PyVal) :=
  add.foldl (fun a p => upsert a p.1 p.2) acc

/-- `ClassifierAgent._flatten_json` (fuelled; the wrapper supplies the
structural size, which bounds nesting depth): nested dictionaries
flatten with dot-joined keys; for a list only a first element that is
a dictionary is flattened, other lists are stored stringified;
non-dictionary input yields the empty mapping (`dict.update`
semantics via `upsert`). -/
def flattenF : Nat → List (String × PyVal) → String → List (String × PyVal) → List (String × PyVal)
  | 0, _, _, acc => acc
  | Nat.succ fuel, kvs, parent, acc =>
    match kvs with
    | [] => acc
    | (k, v) :: rest =>
      let nk := if parent = "" then k else parent ++ "." ++ k
      let acc2 :=
        match v with
        | .dict dkvs => dict_update acc (flattenF fuel dkvs nk [])
        | .list (PyVal.dict dkvs :: _) => dict_update acc (flattenF fuel dkvs nk [])
        | .list xs => upsert acc nk (.str (pyStr (.list xs)))
        | other => upsert acc nk other
      flattenF fuel rest parent acc2

def flatten_json : PyVal → String → List (String × PyVal)
  | .dict kvs, parent => flattenF pyFuel kvs parent []
  | _, _ => []

/-- The `Fraud Risk` structural bonus: +3 per flattened key containing
`risk` with a numeric value above `0.7` (Python `bool` counts as
numeric), and +3 per flattened key containing a fraud indicator word
with a truthy value. -/
def fraud_key_bonus (kv : String × PyVal) : Nat :=
  let lk := strLower kv.1
  (match pyNum kv.2 with
   | some x => if strContains lk "risk" && decide ((7 : Rat) / 10 < x) then 3 else 0
   | Option.none => 0) +
  (if (["suspicious", "fraud", "anomaly"].any (fun i => strContains lk i)) && pyTruthy kv.2 then 3 else 0)

/-- The score of one intent schema against the textual form and the
flattened key set. -/
def intent_score (format_type : String) (text : String) (json_data : PyVal)
    (intent : String) (kws json_fields : List String) : Nat :=
  let flat := flatten_json json_data ""
  let kwScore := keyword_hits text kws
  let fieldScore :=
    if format_type = "JSON" && pyTruthy json_data then
      2 * (json_fields.filter (fun f => flat.any (fun kv => strContains (strLower kv.1) (strLower f)))).length
    else 0
  let pdfBias := if format_type = "PDF" && intent = "Regulation" then 2 else 0
  let fraudBonus :=
    if intent = "Fraud Risk" then
      (if format_type = "JSON" && pyTruthy json_data then
        (flat.map fraud_key_bonus).sum
       else 0) + 2 * keyword_hits text kws
    else 0
  kwScore + fieldScore + pdfBias + fraudBonus

/-- The textual form and parsed mapping that `_determine_intent`
prepares before scoring.  For format `JSON` a mapping is dumped and
lower-cased and a string is re-parsed (`json.loads` failure keeps an
empty mapping); otherwise strings lower-case, bytes give the empty
text. -/
def intent_text_data (libs : PyLibs) (data : PyVal) (format_type : String) : String × PyVal :=
  if format_type = "JSON" then
    match data with
    | .dict _ => (strLower (pyDumps data), data)
    | .str s =>
      match libs.json_loads s with
      | some v => (strLower s, v)
      | Option.none => (strLower s, .dict [])
    | other => (strLower (pyStr other), .dict [])
  else
    match data with
    | .str s => (strLower s, .dict [])
    | .bytes _ => ("", .dict [])
    | other => (strLower (pyStr other), .dict [])

def intent_priority : List String := ["Fraud Risk", "Regulation", "Invoice"]

/-- `ClassifierAgent._determine_intent`. -/
def determine_intent (libs : PyLibs) (data : PyVal) (format_type : String) : String :=
  let td := intent_text_data libs data format_type
  let scores := intent_schemas.map
    (fun s => (s.1, intent_score format_type td.1 td.2 s.1 s.2.1 s.2.2))
  let mx := max_score scores
  if mx > 0 then
    let maxIntents := (scores.filter (fun p => p.2 = mx)).map (fun p => p.1)
    if maxIntents.length > 1 then
      match intent_priority.find? (fun p => maxIntents.contains p) with
      | some p => p
      | Option.none => pick_max_first scores "General"
    else pick_max_first scores "General"
  else
    match format_type with
    | "PDF" => "Regulation"
    | "Email" => "General"
    | "JSON" => "General"
    | _ => "General"

/-- `ClassifierAgent.classify`. -/
def classify (libs : PyLibs) (data : PyVal) (now : String) : PyVal :=
  let f := determine_format libs data
  .dict [("format", .str f),
         ("intent", .str (determine_intent libs data f)),
         ("timestamp", .str now)]

end Classifier

namespace ActionChain

/-- A condition `{field, operator, value}` of a chain. -/
structure Condition where
  field : String
  operator : String
  value : PyVal

structure ChainDef where
  conditions : List Condition
  actions : List String
  created_at : String

/-- A registered action: may raise (modelled by `Except`). -/
def PyAction : Type := PyVal → Except String PyVal

/-- The two registries of an `ActionChain` instance, in insertion
order. -/
structure ChainState where
  registered_actions : List (String × PyAction)
  action_chains : List (String × ChainDef)

def lookupStr {α : Type} : List (String × α) → String → Option α
  | [], _ => Option.none
  | (k, v) :: rest, key => if k = key then some v else lookupStr rest key

/-- `ActionChain.register_action`: duplicate ids are rejected. -/
def register_action (st : ChainState) (action_id : String) (f : PyAction) : Bool × ChainState :=
  if (lookupStr st.registered_actions action_id).isSome then (false, st)
  else (true, { st with registered_actions := st.registered_actions ++ [(action_id, f)] })

/-- `ActionChain.define_chain`: a duplicate chain id or a reference to
an unregistered action id returns `False` and leaves both registries
untouched (the source returns at the first unregistered action; the
result is the same). -/
def define_chain (st : ChainState) (chain_id : String) (conditions : List Condition)
    (actions : List String) (now : String) : Bool × ChainState :=
  if (lookupStr st.action_chains chain_id).isSome then (false, st)
  else if actions.any (fun a => (lookupStr st.registered_actions a).isNone) then (false, st)
  else (true, { st with action_chains :=
                  st.action_chains ++ [(chain_id, ⟨conditions, actions, now⟩)] })

/-- The dot-path walk of `_check_condition`: each segment must find a
dictionary with that key, otherwise resolution fails. -/
def resolve_path : List String → PyVal → Option PyVal
  | [], v => some v
  | p :: ps, .dict kvs =>
    match dictGet kvs p with
    | some v => resolve_path ps v
    | Option.none => Option.none
  | _ :: _, _ => Option.none

/-- The operator dispatch of `_check_condition`.  `gt`/`lt` raise on
incomparable values as Python does; `contains` falls back to `False`
for values without `__contains__`; an unknown operator yields
`False`. -/
def apply_operator (libs : PyLibs) (op : String) (actual value : PyVal) : Except String Bool :=
  if op = "eq" then .ok (pyEq actual value)
  else if op = "neq" then .ok (!pyEq actual value)
  else if op = "gt" then pyGt actual value
  else if op = "lt" then pyLt actual value
  else if op = "contains" then
    (if pyHasContains actual then pyIn value actual else .ok false)
  else if op = "regex" then
    match value with
    | .str pat => libs.re_search pat (pyStr actual)
    | _ => .error "TypeError: first argument must be string or pattern"
  else .ok false

/-- `ActionChain._check_condition`: failed path resolution is `False`
(never an error); otherwise the operator is applied. -/
def check_condition (libs : PyLibs) (cond : Condition) (data : PyVal) : Except String Bool :=
  match resolve_path (strSplitOn cond.field ".") data with
  | Option.none => .ok false
  | some actual => apply_operator libs cond.operator actual cond.value

/-- `ActionChain._check_all_conditions`: `all(...)` over a generator —
short-circuits at the first false condition. -/
def check_all_conditions (libs : PyLibs) : List Condition → PyVal → Except String Bool
  | [], _ => .ok true
  | c :: cs, data =>
    match check_condition libs c data with
    | .error e => .error e
    | .ok b => if b then check_all_conditions libs cs data else .ok false

/-- The per-action result of `process`: `{"action_id", "success":
True, "result"}` on success, `{"action_id", "success": False,
"error"}` on a caught exception. -/
structure ActionOutcome where
  action_id : String
  success : Bool
  result : Option PyVal
  error : Option String

/-- One action invocation inside `process`: unregistered ids are
silently skipped (the `if action_func:` guard); the invocation itself
is wrapped in `try/except`, so a raising action becomes a failure
outcome. -/
def exec_action (reg : List (String × PyAction)) (data : PyVal) (aid : String) :
    Option ActionOutcome :=
  match lookupStr reg aid with
  | some f =>
    some (match f data with
      | .ok r => ⟨aid, true, some r, Option.none⟩
      | .error e => ⟨aid, false, Option.none, some e⟩)
  | Option.none => Option.none

/-- The `{"chain_id", "triggered_at", "actions"}` record appended for
each triggered chain. -/
structure TriggeredChain where
  chain_id : String
  triggered_at : String
  actions : List ActionOutcome

def process_chains (libs : PyLibs) (reg : List (String × PyAction)) (now : String)
    (data : PyVal) : List (String × ChainDef) → Except String (List TriggeredChain)
  | [] => .ok []
  | (cid, ch) :: rest =>
    match check_all_conditions libs ch.conditions data with
    | .error e => .error e
    | .ok m =>
      match process_chains libs reg now data rest with
      | .error e => .error e
      | .ok tail =>
        if m then .ok (⟨cid, now, ch.actions.filterMap (exec_action reg data)⟩ :: tail)
        else .ok tail

/-- `ActionChain.process`: walk the chain registry in insertion order;
a chain whose conditions all hold executes its actions in order.  An
exception from a condition check propagates (there is no `try` around
it), which `Except` models. -/
def process (libs : PyLibs) (st : ChainState) (now : String) (data : PyVal) :
    Except String (List TriggeredChain) :=
  process_chains libs st.registered_actions now data st.action_chains

/-- `send_email_notification` of `register_default_actions`. -/
def send_email_notification : PyAction := fun data =>
  match data with
  | .dict kvs =>
    .ok (.dict [("notification_type", .str "email"),
                ("recipient", .str "admin@example.com"),
                ("subject", .str ("Alert: " ++ pyStr (dictGetD kvs "format" .none) ++
                                  " with " ++ pyStr (dictGetD kvs "intent" .none) ++
                                  " intent received")),
                ("status", .str "simulated")])
  | _ => .error "AttributeError: get"

/-- `add_to_crm` of `register_default_actions`. -/
def add_to_crm : PyAction := fun data =>
  match data with
  | .dict kvs =>
    let ft := dictGetD kvs "format" .none
    if pyEq ft (.str "Email") then
      match dictGetD kvs "processed_data" (.dict []) with
      | .dict ed =>
        .ok (.dict [("crm_action", .str "contact_added"),
                    ("contact", .dict [("name", dictGetD ed "sender_name" .none),
                                       ("email", dictGetD ed "sender_email" .none),
                                       ("status", .str "simulated")])])
      | _ => .error "AttributeError: get"
    else if pyEq ft (.str "JSON") then
      match dictGetD kvs "processed_data" (.dict []) with
      | .dict pd =>
        match dictGetD pd "flowbit_data" (.dict []) with
        | .dict jd =>
          .ok (.dict [("crm_action", .str "order_added"),
                      ("order", .dict [("id", dictGetD jd "order_id" .none),
                                       ("customer", dictGetD jd "customer" .none),
                                       ("amount", dictGetD jd "total_amount" .none),
                                       ("status", .str "simulated")])])
        | _ => .error "AttributeError: get"
      | _ => .error "AttributeError: get"
    else .ok (.dict [("status", .str "not_applicable")])
  | _ => .error "AttributeError: get"

/-- `flag_for_review` of `register_default_actions`. -/
def flag_for_review : PyAction := fun _ =>
  .ok (.dict [("flagged", .bool true),
              ("reason", .str "Triggered by action chain"),
              ("review_queue", .str "general"),
              ("priority", .str "medium"),
              ("status", .str "simulated")])

/-- `generate_compliance_report` of `register_default_actions`. -/
def generate_compliance_report : PyAction := fun data =>
  match data with
  | .dict kvs =>
    if pyEq (dictGetD kvs "intent" .none) (.str "Regulation") then
      .ok (.dict [("report_type", .str "compliance"),
                  ("generated", .bool true),
                  ("sections", .list [.str "Overview", .str "Regulatory Impact",
                                      .str "Required Actions"]),
                  ("status", .str "simulated")])
    else .ok (.dict [("status", .str "not_applicable")])
  | _ => .error "AttributeError: get"

/-- `register_default_actions`. -/
def register_defaults (st : ChainState) : ChainState :=
  let st1 := (register_action st "email_notification" send_email_notification).2
  let st2 := (register_action st1 "add_to_crm" add_to_crm).2
  let st3 := (register_action st2 "flag_for_review" flag_for_review).2
  (register_action st3 "compliance_report" generate_compliance_report).2

/-- The chain registry built by `main.startup_event`: the four default
actions plus the three default chains. -/
def startup_state (now : String) : ChainState :=
  let st0 := register_defaults { registered_actions := [], action_chains := [] }
  let st1 := (define_chain st0 "urgent_email_chain"
    [⟨"format", "eq", .str "Email"⟩, ⟨"processed_data.urgency", "eq", .str "High"⟩]
    ["email_notification", "flag_for_review"] now).2
  let st2 := (define_chain st1 "high_value_order_chain"
    [⟨"format", "eq", .str "JSON"⟩,
     ⟨"processed_data.flowbit_data.total_amount", "gt", .int 1000⟩]
    ["add_to_crm", "email_notification"] now).2
  (define_chain st2 "regulation_document_chain"
    [⟨"format", "eq", .str "PDF"⟩, ⟨"intent", "eq", .str "Regulation"⟩]
    ["compliance_report", "flag_for_review"] now).2

end ActionChain

namespace Classifier

/-- The persistence collaborator as seen by the router: id generation
plus the three write operations `route_to_agent` performs, each of
which may raise (`Except`). -/
structure MemoryStore where
  generate_conversation_id : String
  store_metadata : PyVal → Except String String
  store_extraction : Option String → String → PyVal → Except String String
  store_result : Option String → PyVal → Except String String

def optStr : Option String → PyVal
  | some s => .str s
  | Option.none => .none

/-- The unguarded `store_metadata` call of `route_to_agent` (made only
when a memory store is present). -/
def store_meta_step (ms : Option MemoryStore) (payload : PyVal) : Except String Unit :=
  match ms with
  | some m => do
    let _ ← m.store_metadata payload
    pure ()
  | Option.none => pure ()

/-- The unguarded `store_extraction` call of `route_to_agent`. -/
def store_extraction_step (ms : Option MemoryStore) (cid : Option String)
    (agent : String) (pd : PyVal) : Except String Unit :=
  match ms with
  | some m => do
    let _ ← m.store_extraction cid agent pd
    pure ()
  | Option.none => pure ()

/-- The unguarded `store_result` call of `route_to_agent`, skipped for
error envelopes. -/
def store_result_step (ms : Option MemoryStore) (cid : Option String)
    (rkvs : List (String × PyVal)) : Except String Unit :=
  match ms with
  | some m =>
    if dictHas rkvs "error" then pure ()
    else do
      let _ ← m.store_result cid (.dict rkvs)
      pure ()
  | Option.none => pure ()

/-- `ClassifierAgent.route_to_agent`.  The PDF agent the classifier
holds is passed in as `pdf_process` (dependency injection mirroring
`self.pdf_agent`; no claim depends on its internals).  Every
persistence call is made without a surrounding `try`, so its failure
propagates — exactly as in the source.  The `Email` branch passes the
raw input to `parse_email`; that format only arises for string
inputs. -/
def route_to_agent (libs : PyLibs) (pdf_process : PyVal → Except String PyVal)
    (ms : Option MemoryStore) (data : PyVal) (conversation_id : Option String)
    (now : String) : Except String PyVal := do
  let cid : Option String :=
    match conversation_id, ms with
    | Option.none, some m => some m.generate_conversation_id
    | c, _ => c
  let fmt := determine_format libs data
  let intent := determine_intent libs data fmt
  let _ ← store_meta_step ms (.dict
    [("conversation_id", optStr cid), ("source", .str "api"),
     ("format_type", .str fmt), ("intent", .str intent),
     ("timestamp", .str now)])
  let rkvs : List (String × PyVal) ←
    if fmt = "JSON" then do
      let pd ← JSONAgent.process libs data now
      let _ ← store_extraction_step ms cid "json_agent" pd
      pure [("format", .str "JSON"), ("processed_data", pd), ("conversation_id", optStr cid)]
    else if fmt = "Email" then do
      let s := match data with | .str s => s | other => pyStr other
      let pd := EmailAgent.emailDataToPy (EmailAgent.parse_email libs s now)
      let _ ← store_extraction_step ms cid "email_agent" pd
      pure [("format", .str "Email"), ("processed_data", pd), ("conversation_id", optStr cid)]
    else if fmt = "PDF" then do
      let pd ← pdf_process data
      let _ ← store_extraction_step ms cid "pdf_agent" pd
      pure [("format", .str "PDF"), ("processed_data", pd), ("conversation_id", optStr cid)]
    else
      pure [("error", .str "Unsupported format"), ("format", .str fmt)]
  let _ ← store_result_step ms cid rkvs
  pure (.dict rkvs)

end Classifier

/-- A fragment of Python float-literal parsing (optional sign, digits
with at most one dot): enough of the `float()` grammar for the
concrete inputs appearing in witnesses.  Used only to instantiate
`PyLibs`, never inside the embedding itself. -/
def pyFloatLit (s : String) : Option Rat :=
  let t := (strTrim s).data
  let u := match t with
    | '-' :: r => r
    | '+' :: r => r
    | r => r
  let sign : Rat := match t with
    | '-' :: _ => -1
    | _ => 1
  let dots := (u.filter (fun c => c = '.')).length
  let digs := (u.filter Char.isDigit).length
  if u.isEmpty || !u.all (fun c => c.isDigit || c = '.') || dots > 1 || digs = 0 then
    Option.none
  else
    let ip := u.takeWhile (fun c => c ≠ '.')
    let fp := (u.dropWhile (fun c => c ≠ '.')).drop 1
    let natOf (l : List Char) : Nat := l.foldl (fun a c => a * 10 + (c.toNat - 48)) 0
    some (sign * ((natOf ip : Rat) + (natOf fp : Rat) / ((10 : Rat) ^ fp.length)))

/-- A concrete instantiation of the external collaborators, used to
evaluate witnesses: a `json.loads` that fails (correct on the non-JSON
strings the witnesses feed it), the float-literal fragment above, and
trivial date/regex/hash collaborators. -/
def stubLibs : PyLibs :=
  { json_loads := fun _ => Option.none,
    py_float := pyFloatLit,
    strptime := fun _ _ => Option.none,
    fromtimestamp := fun _ => Option.none,
    re_search := fun _ _ => .ok false,
    py_hash := fun _ => 0 }

/-- The fixed item-level anomaly strings. -/
def item_fixed_anoms : List String :=
  ["Item field mapping: \x27id\x27 used instead of \x27sku\x27",
   "Item field mapping: \x27product_id\x27 used instead of \x27sku\x27",
   "Item field mapping: \x27quantity\x27 used instead of \x27qty\x27",
   "Item field mapping: \x27amount\x27 used instead of \x27qty\x27"]

/-! ## Concrete inputs of the end-to-end scenarios -/

/-- The structured-record input of scenario A. -/
def c1kvs : List (String × PyVal) :=
  [("order_id", .str "1"), ("customer", .str "Acme"),
   ("items", .list [.dict [("sku", .str "X1"), ("qty", .int 2)]]),
   ("total_amount", .int 1500), ("currency", .str "USD"),
   ("delivery_date", .str "2024-01-15")]

def c1input : PyVal := .dict c1kvs

/-- The envelope the router assembles for scenario A (`dd` is the
formatted delivery date, `t1` the processing timestamp). -/
def c1env (dd t1 : String) : PyVal :=
  .dict [("format", .str "JSON"),
         ("processed_data", .dict
           [("flowbit_data", .dict
             [("order_id", .str "1"), ("customer", .str "Acme"),
              ("items", .list [.dict [("sku", .str "X1"), ("qty", .int 2)]]),
              ("total_amount", .float 1500), ("currency", .str "USD"),
              ("delivery_date", .str dd)]),
            ("anomalies", .list []), ("is_valid", .bool true), ("processed_at", .str t1)]),
         ("conversation_id", .none)]

/-- The raw value the `total_amount` alias chain
(`total_amount`/`amount`/`total`) selects, if any. -/
def total_source (j : List (String × PyVal)) : Option PyVal :=
  match dictGet j "total_amount" with
  | some v => some v
  | Option.none =>
    match dictGet j "amount" with
    | some v => some v
    | Option.none => dictGet j "total"

/-- Every fixed anomaly string producible by the segments other than
the `total_amount` one. -/
def other_fixed_anoms : List String :=
  ["Field mapping: \x27id\x27 used instead of \x27order_id\x27",
   "Field mapping: \x27order_number\x27 used instead of \x27order_id\x27",
   "Missing required field: order_id",
   "Field mapping: \x27customer_name\x27 used instead of \x27customer\x27",
   "Field mapping: \x27name\x27 used instead of \x27customer\x27",
   "Missing required field: customer",
   "Missing required field: items",
   "Field mapping: \x27products\x27 used instead of \x27items\x27",
   "Field mapping: \x27line_items\x27 used instead of \x27items\x27",
   "Field mapping: \x27order_items\x27 used instead of \x27items\x27",
   "Item field mapping: \x27id\x27 used instead of \x27sku\x27",
   "Item field mapping: \x27product_id\x27 used instead of \x27sku\x27",
   "Item field mapping: \x27quantity\x27 used instead of \x27qty\x27",
   "Item field mapping: \x27amount\x27 used instead of \x27qty\x27",
   "Field mapping: \x27currency_code\x27 used instead of \x27currency\x27",
   "Missing required field: currency",
   "Field mapping: \x27date\x27 used instead of \x27delivery_date\x27",
   "Field mapping: \x27delivery.date\x27 used instead of \x27delivery_date\x27",
   "Missing required field: delivery_date",
   "Suspicious value: empty items array"]

/-- The correspondence input of scenario B. -/
def c5str : String :=
  "From: a@b.com\nSubject: URGENT refund needed\n\nThis is unacceptable, I want a refund."

/-- Whether a chain's conditions all evaluate to `True` on the given
envelope (the match predicate of `process`). -/
def chain_matches (libs : PyLibs) (data : PyVal) (p : String × ActionChain.ChainDef) : Bool :=
  match ActionChain.check_all_conditions libs p.2.conditions data with
  | .ok true => true
  | _ => false

/-- A registry with one chain that matches `{"format": "JSON"}` and a
second whose `gt` condition compares the string `"JSON"` with `0`. -/
def c8cex_state : ActionChain.ChainState :=
  let st0 := (ActionChain.register_action ⟨[], []⟩ "noop" (fun _ => .ok .none)).2
  let st1 := (ActionChain.define_chain st0 "c_first"
    [⟨"format", "eq", .str "JSON"⟩] ["noop"] "t0").2
  (ActionChain.define_chain st1 "c_second"
    [⟨"format", "gt", .int 0⟩] ["noop"] "t0").2

/-- A registry with a raising action `boom` followed by a succeeding
`ok_step` in one chain, plus a second (condition-free, hence always
matching) chain. -/
def c8w_state : ActionChain.ChainState :=
  let st0 := (ActionChain.register_action ⟨[], []⟩ "boom" (fun _ => .error "kaboom")).2
  let st1 := (ActionChain.register_action st0 "ok_step" (fun _ => .ok (.int 1))).2
  let st2 := (ActionChain.define_chain st1 "cA"
    [⟨"format", "eq", .str "JSON"⟩] ["boom", "ok_step"] "t0").2
  (ActionChain.define_chain st2 "cB" [] ["ok_step"] "t0").2

/-- A persistence collaborator whose writes all fail. -/
def fail_store : Classifier.MemoryStore :=
  { generate_conversation_id := "conv-1",
    store_metadata := fun _ => .error "db down",
    store_extraction := fun _ _ _ => .error "db down",
    store_result := fun _ _ => .error "db down" }

/-! ## Helper lemmas -/

theorem exc_bind_ok {α β ε : Type} (a : α) (f : α → Except ε β) :
    (Except.ok a >>= f) = f a := rfl

theorem exc_bind_error {α β ε : Type} (e : ε) (f : α → Except ε β) :
    ((Except.error e : Except ε α) >>= f) = Except.error e := rfl

/-- A string with prefix `p` cannot equal `t` when `p` is not a prefix
of `t` (used to separate constructed anomaly messages from the fixed
ones). -/
theorem str_append_ne {p t : String} (s : String) (h : ¬ p.data <+: t.data) :
    p ++ s ≠ t := by
  intro he
  apply h
  rw [← he, String.data_append]
  exact List.prefix_append _ _

/-- The anomalies the `order_id` segment can produce. -/
theorem order_id_part_anoms (j : List (String × PyVal)) :
    ∀ a ∈ (JSONAgent.order_id_part j).2,
      a ∈ ["Field mapping: \x27id\x27 used instead of \x27order_id\x27",
           "Field mapping: \x27order_number\x27 used instead of \x27order_id\x27",
           "Missing required field: order_id"] := by
  intro a ha
  unfold JSONAgent.order_id_part at ha
  split at ha <;> try split at ha
  all_goals try split at ha
  all_goals simp_all

/-- The anomalies the `customer` segment can produce. -/
theorem customer_part_anoms (j : List (String × PyVal)) :
    ∀ a ∈ (JSONAgent.customer_part j).2,
      a ∈ ["Field mapping: \x27customer_name\x27 used instead of \x27customer\x27",
           "Field mapping: \x27name\x27 used instead of \x27customer\x27",
           "Missing required field: customer"] := by
  intro a ha
  unfold JSONAgent.customer_part at ha
  split at ha <;> try split at ha
  all_goals try split at ha
  all_goals simp_all

/-- The anomalies the `delivery_date` segment can produce. -/
theorem date_part_anoms (libs : PyLibs) (j : List (String × PyVal)) :
    ∀ a ∈ (JSONAgent.date_part libs j).2,
      a ∈ ["Field mapping: \x27date\x27 used instead of \x27delivery_date\x27",
           "Field mapping: \x27delivery.date\x27 used instead of \x27delivery_date\x27",
           "Missing required field: delivery_date"] := by
  intro a ha
  unfold JSONAgent.date_part at ha
  split at ha <;> try split at ha
  all_goals try split at ha
  all_goals try split at ha
  all_goals simp_all

/-- The anomalies the `currency` segment can produce. -/
theorem currency_part_anoms (j : List (String × PyVal)) :
    ∀ a ∈ (JSONAgent.currency_part j).2,
      a ∈ ["Field mapping: \x27currency_code\x27 used instead of \x27currency\x27",
           "Missing required field: currency"]
      ∨ ∃ s, a = "Unknown currency: " ++ s := by
  intro a ha
  unfold JSONAgent.currency_part at ha
  split at ha <;> try split at ha
  all_goals simp_all
  all_goals aesop

theorem items_source_mem (j : List (String × PyVal)) (fs : List String)
    (f : String) (xs : List PyVal) (h : JSONAgent.items_source j fs = some (f, xs)) :
    f ∈ fs := by
  induction fs with
  | nil => simp [JSONAgent.items_source] at h
  | cons g rest ih =>
    unfold JSONAgent.items_source at h
    split at h
    · simp_all
    · exact List.mem_cons_of_mem _ (ih h)

theorem item_sku_anoms (item : PyVal) (p : String × List String)
    (h : JSONAgent.item_sku item = .ok p) :
    ∀ a ∈ p.2, a ∈ item_fixed_anoms ∨ ∃ s, a = "Missing SKU in item: " ++ s := by
  intro a ha
  unfold JSONAgent.item_sku at h
  rcases h1 : pyIn (.str "sku") item with e | b <;> rw [h1] at h <;>
    simp only [exc_bind_ok, exc_bind_error] at h
  · cases h
  · cases b
    · rcases h2 : pyIn (.str "id") item with e | b2 <;> rw [h2] at h <;>
        simp only [exc_bind_ok, exc_bind_error] at h
      · cases h
      · cases b2
        · rcases h3 : pyIn (.str "product_id") item with e | b3 <;> rw [h3] at h <;>
            simp only [exc_bind_ok, exc_bind_error] at h
          · cases h
          · cases b3
            · simp only [pure, Except.pure] at h
              cases h
              simp_all [item_fixed_anoms]
            · rcases h4 : pyIndexStr item "product_id" with e | v <;> rw [h4] at h <;>
                simp only [exc_bind_ok, exc_bind_error] at h
              · cases h
              · simp only [pure, Except.pure] at h
                cases h
                simp_all [item_fixed_anoms]
        · rcases h4 : pyIndexStr item "id" with e | v <;> rw [h4] at h <;>
            simp only [exc_bind_ok, exc_bind_error] at h
          · cases h
          · simp only [pure, Except.pure] at h
            cases h
            simp_all [item_fixed_anoms]
    · rcases h4 : pyIndexStr item "sku" with e | v <;> rw [h4] at h <;>
        simp only [exc_bind_ok, exc_bind_error] at h
      · cases h
      · simp only [pure, Except.pure] at h
        cases h
        simp_all

theorem item_qty_anoms (libs : PyLibs) (item : PyVal) (p : Int × List String)
    (h : JSONAgent.item_qty libs item = .ok p) :
    ∀ a ∈ p.2, a ∈ item_fixed_anoms ∨ ∃ s, a = "Missing quantity in item: " ++ s := by
  intro a ha
  unfold JSONAgent.item_qty at h
  rcases h1 : pyIn (.str "qty") item with e | b <;> rw [h1] at h <;>
    simp only [exc_bind_ok, exc_bind_error] at h
  · cases h
  · cases b
    · rcases h2 : pyIn (.str "quantity") item with e | b2 <;> rw [h2] at h <;>
        simp only [exc_bind_ok, exc_bind_error] at h
      · cases h
      · cases b2
        · rcases h3 : pyIn (.str "amount") item with e | b3 <;> rw [h3] at h <;>
            simp only [exc_bind_ok, exc_bind_error] at h
          · cases h
          · cases b3
            · simp only [pure, Except.pure] at h
              cases h
              simp_all [item_fixed_anoms]
            · rcases h4 : pyIndexStr item "amount" with e | v <;> rw [h4] at h <;>
                simp only [exc_bind_ok, exc_bind_error] at h
              · cases h
              · simp only [pure, Except.pure] at h
                cases h
                simp_all [item_fixed_anoms]
        · rcases h4 : pyIndexStr item "quantity" with e | v <;> rw [h4] at h <;>
            simp only [exc_bind_ok, exc_bind_error] at h
          · cases h
          · simp only [pure, Except.pure] at h
            cases h
            simp_all [item_fixed_anoms]
    · rcases h4 : pyIndexStr item "qty" with e | v <;> rw [h4] at h <;>
        simp only [exc_bind_ok, exc_bind_error] at h
      · cases h
      · simp only [pure, Except.pure] at h
        cases h
        simp_all

theorem extract_item_anoms (libs : PyLibs) (item : PyVal) (p : PyVal × List String)
    (h : JSONAgent.extract_item libs item = .ok p) :
    ∀ a ∈ p.2, a ∈ item_fixed_anoms
      ∨ (∃ s, a = "Missing SKU in item: " ++ s)
      ∨ (∃ s, a = "Missing quantity in item: " ++ s) := by
  intro a ha
  unfold JSONAgent.extract_item at h
  rcases h1 : JSONAgent.item_sku item with e | sp <;> rw [h1] at h <;>
    simp only [exc_bind_ok, exc_bind_error] at h
  · cases h
  · rcases h2 : JSONAgent.item_qty libs item with e | qp <;> rw [h2] at h <;>
      simp only [exc_bind_ok, exc_bind_error] at h
    · cases h
    · simp only [pure, Except.pure] at h
      cases h
      rcases List.mem_append.mp ha with hs | hq
      · rcases item_sku_anoms item sp h1 a hs with hf | he
        · exact Or.inl hf
        · exact Or.inr (Or.inl he)
      · rcases item_qty_anoms libs item qp h2 a hq with hf | he
        · exact Or.inl hf
        · exact Or.inr (Or.inr he)

theorem extract_items_anoms (libs : PyLibs) (xs : List PyVal) (p : List PyVal × List String)
    (h : JSONAgent.extract_items libs xs = .ok p) :
    ∀ a ∈ p.2, a ∈ item_fixed_anoms
      ∨ (∃ s, a = "Missing SKU in item: " ++ s)
      ∨ (∃ s, a = "Missing quantity in item: " ++ s) := by
  induction xs generalizing p with
  | nil =>
    unfold JSONAgent.extract_items at h
    cases h
    simp
  | cons it rest ih =>
    intro a ha
    unfold JSONAgent.extract_items at h
    rcases h1 : JSONAgent.extract_item libs it with e | fp <;> rw [h1] at h <;>
      simp only [exc_bind_ok, exc_bind_error] at h
    · cases h
    · rcases h2 : JSONAgent.extract_items libs rest with e | rp <;> rw [h2] at h <;>
        simp only [exc_bind_ok, exc_bind_error] at h
      · cases h
      · cases h
        rcases List.mem_append.mp ha with hs | hq
        · exact extract_item_anoms libs it fp h1 a hs
        · exact ih rp h2 a hq

/-- Every anomaly the `items` segment can produce: a fixed string, or
one of the two per-item messages carrying a rendered item. -/
theorem items_part_anoms (libs : PyLibs) (j : List (String × PyVal))
    (p : List PyVal × Bool × List String) (h : JSONAgent.items_part libs j = .ok p) :
    ∀ a ∈ p.2.2,
      a ∈ ("Missing required field: items" ::
           "Field mapping: \x27products\x27 used instead of \x27items\x27" ::
           "Field mapping: \x27line_items\x27 used instead of \x27items\x27" ::
           "Field mapping: \x27order_items\x27 used instead of \x27items\x27" ::
           item_fixed_anoms)
      ∨ (∃ s, a = "Missing SKU in item: " ++ s)
      ∨ (∃ s, a = "Missing quantity in item: " ++ s) := by
  intro a ha
  unfold JSONAgent.items_part at h
  split at h
  case h_1 f xs heq =>
    rcases h2 : JSONAgent.extract_items libs xs with e | rp <;> rw [h2] at h <;>
      simp only [exc_bind_ok, exc_bind_error] at h
    · cases h
    · cases h
      rcases List.mem_append.mp ha with hal | hit
      · left
        have hf : f ∈ JSONAgent.items_fields := items_source_mem j _ f xs heq
        by_cases hfi : f = "items"
        · simp [hfi] at hal
        · simp [hfi] at hal
          subst hal
          simp [JSONAgent.items_fields] at hf
          rcases hf with hf | hf | hf | hf <;> subst hf <;> simp_all
      · rcases extract_items_anoms libs xs rp h2 a hit with hf | he
        · left
          simp [item_fixed_anoms] at hf ⊢
          tauto
        · right
          exact he
  case h_2 =>
    cases h
    simp_all

theorem suspicious_total_anoms (t : PyVal) :
    ∀ a ∈ JSONAgent.suspicious_total t, a = JSONAgent.negative_total := by
  intro a ha
  unfold JSONAgent.suspicious_total at ha
  split at ha <;> simp_all

/-- A successful run of `map_to_flowbit_schema` is exactly the
assembly of its six field segments, the type check, and the two
suspicious-value checks, with the anomalies concatenated in source
order. -/
theorem map_to_flowbit_eq (libs : PyLibs) (j : List (String × PyVal))
    (fb : List (String × PyVal)) (anoms : List String)
    (h : JSONAgent.map_to_flowbit_schema libs j = .ok (fb, anoms)) :
    ∃ its : List PyVal × Bool × List String,
      JSONAgent.items_part libs j = .ok its ∧
      fb = [("order_id", (JSONAgent.order_id_part j).1),
            ("customer", (JSONAgent.customer_part j).1),
            ("items", .list its.1),
            ("total_amount", (JSONAgent.type_check_total libs (JSONAgent.total_part libs j).1).1),
            ("currency", (JSONAgent.currency_part j).1),
            ("delivery_date", (JSONAgent.date_part libs j).1)] ∧
      anoms = (JSONAgent.order_id_part j).2 ++ (JSONAgent.customer_part j).2 ++ its.2.2
              ++ (JSONAgent.total_part libs j).2 ++ (JSONAgent.currency_part j).2
              ++ (JSONAgent.date_part libs j).2
              ++ (JSONAgent.type_check_total libs (JSONAgent.total_part libs j).1).2
              ++ JSONAgent.suspicious_total (JSONAgent.type_check_total libs (JSONAgent.total_part libs j).1).1
              ++ (if its.1.isEmpty && its.2.1 then ["Suspicious value: empty items array"] else []) := by
  unfold JSONAgent.map_to_flowbit_schema at h
  rcases ho : JSONAgent.order_id_part j with ⟨oid, a1⟩
  rcases hc : JSONAgent.customer_part j with ⟨cust, a2⟩
  rcases ht : JSONAgent.total_part libs j with ⟨tval, a4⟩
  rcases hcu : JSONAgent.currency_part j with ⟨curr, a5⟩
  rcases hd : JSONAgent.date_part libs j with ⟨dd, a6⟩
  rcases htc : JSONAgent.type_check_total libs tval with ⟨tval2, a7⟩
  rw [ho, hc, ht, hcu, hd] at h
  rcases hip : JSONAgent.items_part libs j with e | ⟨fits, found, a3⟩ <;> rw [hip] at h <;>
    simp only [exc_bind_ok, exc_bind_error] at h
  · cases h
  · rw [htc] at h
    refine ⟨(fits, found, a3), rfl, ?_, ?_⟩ <;> cases h <;> simp

/-! ## Claims -/

set_option maxRecDepth 8000 in
set_option maxHeartbeats 1000000 in
/-- C1: for scenario A's structured-record input, the classifier yields
format `JSON` (StructuredRecord) and intent `Invoice`, the extractor
reports zero anomalies, and processing the routed envelope against the
default startup chains triggers exactly the high-value-order chain
(its `total_amount > 1000` condition holds at `1500.0`). -/
theorem c1_scenario_a (libs : PyLibs) (pdf : PyVal → Except String PyVal)
    (t0 t1 t2 : String) :
    Classifier.determine_format libs c1input = "JSON"
    ∧ Classifier.determine_intent libs c1input "JSON" = "Invoice"
    ∧ (JSONAgent.map_to_flowbit_schema libs c1kvs).map Prod.snd = .ok []
    ∧ ((Classifier.route_to_agent libs pdf Option.none c1input Option.none t1).bind
        (fun env => (ActionChain.process libs (ActionChain.startup_state t0) t2 env).map
          (List.map ActionChain.TriggeredChain.chain_id)))
      = .ok ["high_value_order_chain"] := by
  refine ⟨rfl, ?_, rfl, ?_⟩
  · have h : Classifier.intent_text_data libs c1input "JSON"
        = (strLower (pyDumps c1input), c1input) := rfl
    unfold Classifier.determine_intent
    rw [h]
    decide
  · have henv : Classifier.route_to_agent libs pdf Option.none c1input Option.none t1
        = .ok (c1env (JSONAgent.format_date libs (.str "2024-01-15")) t1) := rfl
    rw [henv]
    show (ActionChain.process libs (ActionChain.startup_state t0) t2
            (c1env (JSONAgent.format_date libs (.str "2024-01-15")) t1)).map
          (List.map ActionChain.TriggeredChain.chain_id)
        = .ok ["high_value_order_chain"]
    generalize JSONAgent.format_date libs (.str "2024-01-15") = dd
    rfl

/-- C2: condition evaluation resolves the dot-separated field path by
successive mapping-key lookups; a missing segment at any level makes
the condition false without an error; and a chain matches (the
conjunction evaluates to `True`) exactly when every one of its
conditions evaluates to true. -/
theorem c2_condition_evaluation (libs : PyLibs) (cond : ActionChain.Condition)
    (data : PyVal) (conds : List ActionChain.Condition) :
    (ActionChain.resolve_path (strSplitOn cond.field ".") data = Option.none →
      ActionChain.check_condition libs cond data = .ok false)
    ∧ (∀ (p : String) (ps : List String) (kvs : List (String × PyVal)),
        ActionChain.resolve_path (p :: ps) (.dict kvs)
          = (dictGet kvs p).bind (fun v => ActionChain.resolve_path ps v))
    ∧ (ActionChain.check_all_conditions libs conds data = .ok true ↔
        ∀ c ∈ conds, ActionChain.check_condition libs c data = .ok true) := by
  refine ⟨?_, ?_, ?_⟩
  · intro h
    unfold ActionChain.check_condition
    rw [h]
  · intro p ps kvs
    cases h : dictGet kvs p <;>
      simp only [ActionChain.resolve_path, h, Option.bind]
  · induction conds with
    | nil => simp [ActionChain.check_all_conditions]
    | cons c cs ih =>
      unfold ActionChain.check_all_conditions
      rcases hc : ActionChain.check_condition libs c data with e | b
      · simp [hc]
      · cases b
        · simp [hc]
        · simp only [if_true]
          rw [ih]
          simp [hc]

/-- C2 witness: a condition whose path `a.b` dies at the integer value
of key `a` evaluates to false, and a concrete one-condition chain
matches. -/
theorem c2_condition_evaluation_witness :
    ActionChain.resolve_path (strSplitOn "a.b" ".") (.dict [("a", .int 1)]) = Option.none
    ∧ ActionChain.check_condition stubLibs ⟨"a.b", "gt", .int 0⟩ (.dict [("a", .int 1)]) = .ok false
    ∧ ActionChain.check_all_conditions stubLibs [⟨"a", "eq", .int 1⟩] (.dict [("a", .int 1)]) = .ok true := by
  refine ⟨rfl, ?_, ?_⟩
  · exact (c2_condition_evaluation stubLibs ⟨"a.b", "gt", .int 0⟩ (.dict [("a", .int 1)]) []).1 rfl
  · exact (c2_condition_evaluation stubLibs ⟨"a.b", "gt", .int 0⟩ (.dict [("a", .int 1)])
      [⟨"a", "eq", .int 1⟩]).2.2.mpr (by intro c hc; simp at hc; subst hc; rfl)

/-- C7: `define_chain` rejects a duplicate chain id, leaving the
previously registered chain (its conditions and actions) untouched;
and a chain referencing an unregistered action id is rejected with no
registration. -/
theorem c7_define_chain_rejection (st : ActionChain.ChainState) (chain_id : String)
    (conds : List ActionChain.Condition) (acts : List String) (now : String) :
    (∀ ch, ActionChain.lookupStr st.action_chains chain_id = some ch →
      ActionChain.define_chain st chain_id conds acts now = (false, st)
      ∧ ActionChain.lookupStr
          (ActionChain.define_chain st chain_id conds acts now).2.action_chains chain_id
        = some ch)
    ∧ ((∃ a ∈ acts, ActionChain.lookupStr st.registered_actions a = Option.none) →
      ActionChain.define_chain st chain_id conds acts now = (false, st)) := by
  constructor
  · intro ch h
    have hd : ActionChain.define_chain st chain_id conds acts now = (false, st) := by
      unfold ActionChain.define_chain
      simp [h]
    exact ⟨hd, by rw [hd]; exact h⟩
  · intro ⟨a, ha, hnone⟩
    unfold ActionChain.define_chain
    by_cases hdup : (ActionChain.lookupStr st.action_chains chain_id).isSome
    · simp [hdup]
    · have : acts.any (fun a => (ActionChain.lookupStr st.registered_actions a).isNone) = true := by
        simp only [List.any_eq_true]
        exact ⟨a, ha, by simp [hnone]⟩
      simp [hdup, this]

/-- C7 witness: re-registering `urgent_email_chain` in the startup
registry fails and keeps its definition; registering a chain whose
action list names `no_such_action` fails. -/
theorem c7_define_chain_rejection_witness :
    ActionChain.define_chain (ActionChain.startup_state "t0") "urgent_email_chain"
      [] ["email_notification"] "t9" = (false, ActionChain.startup_state "t0")
    ∧ ActionChain.lookupStr
        (ActionChain.define_chain (ActionChain.startup_state "t0") "urgent_email_chain"
          [] ["email_notification"] "t9").2.action_chains "urgent_email_chain"
      = some ⟨[⟨"format", "eq", .str "Email"⟩, ⟨"processed_data.urgency", "eq", .str "High"⟩],
             ["email_notification", "flag_for_review"], "t0"⟩
    ∧ ActionChain.define_chain (ActionChain.startup_state "t0") "brand_new_chain"
        [] ["no_such_action"] "t9" = (false, ActionChain.startup_state "t0") := by
  refine ⟨?_, ?_, ?_⟩
  · exact ((c7_define_chain_rejection (ActionChain.startup_state "t0") "urgent_email_chain"
      [] ["email_notification"] "t9").1 _ rfl).1
  · exact ((c7_define_chain_rejection (ActionChain.startup_state "t0") "urgent_email_chain"
      [] ["email_notification"] "t9").1 _ rfl).2
  · exact (c7_define_chain_rejection (ActionChain.startup_state "t0") "brand_new_chain"
      [] ["no_such_action"] "t9").2 ⟨"no_such_action", by simp, rfl⟩

/-- C10 counterexample: on the mapping `{"items": [None]}` the claim's
quantifier range is met (a mapping input) but `process` raises a
`TypeError` (`"sku" in None`) instead of returning any result at all,
so the stated invariant over every mapping input fails. -/
theorem c10_counterexample :
    JSONAgent.process stubLibs (.dict [("items", .list [.none])]) "t"
      = .error "TypeError: argument is not iterable" := rfl

/-- C10 (amended): whenever `process` does return a result, that
result satisfies `is_valid = True` exactly when its anomaly list is
empty. -/
theorem c10_amended (libs : PyLibs) (input : PyVal) (now : String)
    (r : List (String × PyVal)) (h : JSONAgent.process libs input now = .ok (.dict r)) :
    (dictGet r "is_valid" = some (.bool true) ↔ dictGet r "anomalies" = some (.list [])) := by
  have hdec : ∀ v, JSONAgent.process_decoded libs v now = .ok (.dict r) →
      (dictGet r "is_valid" = some (.bool true) ↔ dictGet r "anomalies" = some (.list [])) := by
    intro v hv
    unfold JSONAgent.process_decoded at hv
    split at hv
    case h_1 kvs =>
      rcases hm : JSONAgent.map_to_flowbit_schema libs kvs with e | ⟨fb, anoms⟩ <;>
        rw [hm] at hv <;> simp only [exc_bind_ok, exc_bind_error] at hv
      · cases hv
      · cases hv
        cases anoms <;> simp [dictGet]
    case h_2 =>
      cases hv
      simp [dictGet]
  unfold JSONAgent.process at h
  split at h
  case h_1 s =>
    rcases hl : libs.json_loads s with _ | v <;> rw [hl] at h
    · cases h
      simp [dictGet]
    · exact hdec v h
  case h_2 =>
    exact hdec input h

/-- C10 witness: the empty mapping yields six missing-field anomalies
and is reported `is_valid = False`; the amended invariant holds at that
result. -/
theorem c10_amended_witness :
    JSONAgent.process stubLibs (.dict []) "t"
      = .ok (.dict
          [("flowbit_data", .dict
             [("order_id", .none), ("customer", .none), ("items", .list []),
              ("total_amount", .none), ("currency", .str "USD"), ("delivery_date", .none)]),
           ("anomalies", .list
             [.str "Missing required field: order_id",
              .str "Missing required field: customer",
              .str "Missing required field: items",
              .str "Missing required field: total_amount",
              .str "Missing required field: currency",
              .str "Missing required field: delivery_date"]),
           ("is_valid", .bool false), ("processed_at", .str "t")])
    ∧ (dictGet
          [("flowbit_data", PyVal.dict
             [("order_id", .none), ("customer", .none), ("items", .list []),
              ("total_amount", .none), ("currency", .str "USD"), ("delivery_date", .none)]),
           ("anomalies", PyVal.list
             [.str "Missing required field: order_id",
              .str "Missing required field: customer",
              .str "Missing required field: items",
              .str "Missing required field: total_amount",
              .str "Missing required field: currency",
              .str "Missing required field: delivery_date"]),
           ("is_valid", PyVal.bool false), ("processed_at", PyVal.str "t")] "is_valid"
        = some (.bool true)
      ↔ dictGet
          [("flowbit_data", PyVal.dict
             [("order_id", .none), ("customer", .none), ("items", .list []),
              ("total_amount", .none), ("currency", .str "USD"), ("delivery_date", .none)]),
           ("anomalies", PyVal.list
             [.str "Missing required field: order_id",
              .str "Missing required field: customer",
              .str "Missing required field: items",
              .str "Missing required field: total_amount",
              .str "Missing required field: currency",
              .str "Missing required field: delivery_date"]),
           ("is_valid", PyVal.bool false), ("processed_at", PyVal.str "t")] "anomalies"
        = some (.list [])) :=
  ⟨rfl, c10_amended stubLibs (.dict []) "t" _ rfl⟩

/-- C4 counterexample: `{"currency": "zz", "items": [0]}` has a
currency that upper-cases outside the accepted set, yet the extractor
returns no output at all — the non-mapping `items` entry makes the
membership test `"sku" in 0` raise a `TypeError` — so the claim's
universal statement over such inputs fails. -/
theorem c4_counterexample :
    strUpper (pyStr (.str "zz")) ∉ JSONAgent.valid_currencies
    ∧ JSONAgent.map_to_flowbit_schema stubLibs
        [("currency", .str "zz"), ("items", .list [.int 0])]
      = .error "TypeError: argument is not iterable" :=
  ⟨by decide, rfl⟩

/-- C4 (amended): whenever extraction completes, a supplied currency is
kept upper-cased (with an unknown-currency anomaly when it is outside
the accepted set), and an input with neither `currency` nor the
`currency_code` alias gets the `"USD"` default plus the missing-field
anomaly. -/
theorem c4_currency_handling (libs : PyLibs) (j : List (String × PyVal))
    (fb : List (String × PyVal)) (anoms : List String)
    (h : JSONAgent.map_to_flowbit_schema libs j = .ok (fb, anoms)) :
    (∀ v, dictGet j "currency" = some v →
      dictGet fb "currency" = some (.str (strUpper (pyStr v)))
      ∧ (strUpper (pyStr v) ∉ JSONAgent.valid_currencies →
          ("Unknown currency: " ++ strUpper (pyStr v)) ∈ anoms))
    ∧ (dictGet j "currency" = Option.none → dictGet j "currency_code" = Option.none →
        dictGet fb "currency" = some (.str "USD")
        ∧ "Missing required field: currency" ∈ anoms) := by
  obtain ⟨its, hits, hfb, hanoms⟩ := map_to_flowbit_eq libs j fb anoms h
  subst hfb
  subst hanoms
  constructor
  · intro v hv
    have hc : JSONAgent.currency_part j
        = (.str (strUpper (pyStr v)),
           if strUpper (pyStr v) ∈ JSONAgent.valid_currencies then []
           else ["Unknown currency: " ++ strUpper (pyStr v)]) := by
      unfold JSONAgent.currency_part
      rw [hv]
    constructor
    · rw [hc]
      rfl
    · intro hnv
      rw [hc]
      rw [if_neg hnv]
      simp [List.mem_append]
  · intro h1 h2
    have hc : JSONAgent.currency_part j
        = (.str "USD", ["Missing required field: currency"]) := by
      unfold JSONAgent.currency_part
      rw [h1, h2]
    constructor
    · rw [hc]
      rfl
    · rw [hc]
      simp [List.mem_append]

/-- C4 witness: `{"currency": "xx"}` keeps `"XX"` with an
unknown-currency anomaly; the empty mapping defaults to `"USD"` with
the missing-field anomaly. -/
theorem c4_currency_handling_witness :
    "XX" ∉ JSONAgent.valid_currencies
    ∧ dictGet
        [("order_id", PyVal.none), ("customer", PyVal.none), ("items", PyVal.list []),
         ("total_amount", PyVal.none), ("currency", PyVal.str "XX"), ("delivery_date", PyVal.none)]
        "currency" = some (.str "XX")
    ∧ "Unknown currency: XX" ∈
        ["Missing required field: order_id", "Missing required field: customer",
         "Missing required field: items", "Missing required field: total_amount",
         "Unknown currency: XX", "Missing required field: delivery_date"]
    ∧ dictGet
        [("order_id", PyVal.none), ("customer", PyVal.none), ("items", PyVal.list []),
         ("total_amount", PyVal.none), ("currency", PyVal.str "USD"), ("delivery_date", PyVal.none)]
        "currency" = some (.str "USD")
    ∧ "Missing required field: currency" ∈
        ["Missing required field: order_id", "Missing required field: customer",
         "Missing required field: items", "Missing required field: total_amount",
         "Missing required field: currency", "Missing required field: delivery_date"] := by
  refine ⟨by decide, ?_, ?_, ?_, ?_⟩
  · exact ((c4_currency_handling stubLibs [("currency", .str "xx")] _ _ rfl).1
      (.str "xx") rfl).1
  · exact ((c4_currency_handling stubLibs [("currency", .str "xx")] _ _ rfl).1
      (.str "xx") rfl).2 (by decide)
  · exact ((c4_currency_handling stubLibs [] _ _ rfl).2 rfl rfl).1
  · exact ((c4_currency_handling stubLibs [] _ _ rfl).2 rfl rfl).2

/-- A string that is none of the fixed segment anomalies and does not
start with any of the three constructed-message prefixes cannot occur
in any anomaly segment other than the `total_amount` one. -/
theorem excl_segments (libs : PyLibs) (j : List (String × PyVal))
    (its : List PyVal × Bool × List String) (hits : JSONAgent.items_part libs j = .ok its)
    (t : String) (hfix : t ∉ other_fixed_anoms)
    (hp1 : ¬ "Missing SKU in item: ".data <+: t.data)
    (hp2 : ¬ "Missing quantity in item: ".data <+: t.data)
    (hp3 : ¬ "Unknown currency: ".data <+: t.data) :
    t ∉ (JSONAgent.order_id_part j).2 ∧ t ∉ (JSONAgent.customer_part j).2
    ∧ t ∉ its.2.2 ∧ t ∉ (JSONAgent.currency_part j).2
    ∧ t ∉ (JSONAgent.date_part libs j).2 := by
  simp only [other_fixed_anoms, List.mem_cons, List.not_mem_nil, or_false, not_or] at hfix
  refine ⟨?_, ?_, ?_, ?_, ?_⟩
  · intro hmem
    have hsh := order_id_part_anoms j t hmem
    simp only [List.mem_cons, List.not_mem_nil, or_false] at hsh
    tauto
  · intro hmem
    have hsh := customer_part_anoms j t hmem
    simp only [List.mem_cons, List.not_mem_nil, or_false] at hsh
    tauto
  · intro hmem
    have hsh := items_part_anoms libs j its hits t hmem
    simp only [item_fixed_anoms, List.mem_cons, List.not_mem_nil, or_false] at hsh
    rcases hsh with hsh | ⟨s, hs⟩ | ⟨s, hs⟩
    · tauto
    · exact str_append_ne s hp1 hs.symm
    · exact str_append_ne s hp2 hs.symm
  · intro hmem
    have hsh := currency_part_anoms j t hmem
    simp only [List.mem_cons, List.not_mem_nil, or_false] at hsh
    rcases hsh with hsh | ⟨s, hs⟩
    · tauto
    · exact str_append_ne s hp3 hs.symm
  · intro hmem
    have hsh := date_part_anoms libs j t hmem
    simp only [List.mem_cons, List.not_mem_nil, or_false] at hsh
    tauto

/-- C6 counterexample: for `{"total_amount": "abc"}` the cleaned string
is empty, `float("")` fails, and the extractor silently stores `0.0`:
no type-coercion anomaly is appended (the later `float()` type check
can never fail on the value `_convert_to_number` produced), refuting
the claim that a type-error anomaly accompanies the `0`. -/
theorem c6_counterexample :
    stubLibs.py_float "" = Option.none
    ∧ JSONAgent.map_to_flowbit_schema stubLibs [("total_amount", .str "abc")]
      = .ok ([("order_id", .none), ("customer", .none), ("items", .list []),
              ("total_amount", .float 0), ("currency", .str "USD"), ("delivery_date", .none)],
             ["Missing required field: order_id", "Missing required field: customer",
              "Missing required field: items", "Missing required field: currency",
              "Missing required field: delivery_date"])
    ∧ JSONAgent.type_error_total ∉
        ["Missing required field: order_id", "Missing required field: customer",
         "Missing required field: items", "Missing required field: currency",
         "Missing required field: delivery_date"] :=
  ⟨rfl, rfl, by decide⟩

/-- C6 (amended): when the selected total field holds a string whose
digit-and-dot cleanup fails to parse as a float, the extractor stores
`0.0` and appends no type-coercion anomaly at all — the coercion
failure is silent (the source's type-error check is unreachable). -/
theorem c6_silent_coercion_failure (libs : PyLibs) (j : List (String × PyVal))
    (fb : List (String × PyVal)) (anoms : List String) (s : String)
    (h : JSONAgent.map_to_flowbit_schema libs j = .ok (fb, anoms))
    (hs : total_source j = some (.str s))
    (hf : libs.py_float (String.mk (s.data.filter (fun c => c.isDigit || c = '.')))
      = Option.none) :
    dictGet fb "total_amount" = some (.float 0)
    ∧ JSONAgent.type_error_total ∉ anoms := by
  obtain ⟨its, hits, hfb, hanoms⟩ := map_to_flowbit_eq libs j fb anoms h
  have hcv : JSONAgent.convert_to_number libs (.str s) = 0 := by
    simp [JSONAgent.convert_to_number, hf]
  have hval : JSONAgent.total_part libs j = (.float 0, (JSONAgent.total_part libs j).2) := by
    unfold total_source at hs
    unfold JSONAgent.total_part
    rcases h1 : dictGet j "total_amount" with _ | w <;> rw [h1] at hs
    · rcases h2 : dictGet j "amount" with _ | w <;> rw [h2] at hs
      · rcases h3 : dictGet j "total" with _ | w <;> rw [h3] at hs
        · cases hs
        · cases hs
          simp [h1, h2, h3, hcv, JSONAgent.total_part]
      · cases hs
        simp [h1, h2, hcv, JSONAgent.total_part]
    · cases hs
      simp [h1, hcv, JSONAgent.total_part]
  have hsnd : ∀ a ∈ (JSONAgent.total_part libs j).2,
      a = JSONAgent.map_amount ∨ a = JSONAgent.map_total := by
    intro a ha
    unfold JSONAgent.total_part at ha
    unfold total_source at hs
    rcases h1 : dictGet j "total_amount" with _ | w <;> rw [h1] at hs ha
    · rcases h2 : dictGet j "amount" with _ | w <;> rw [h2] at hs ha
      · rcases h3 : dictGet j "total" with _ | w <;> rw [h3] at hs ha
        · cases hs
        · simp at ha
          tauto
      · simp at ha
        tauto
    · simp at ha
  have htc : JSONAgent.type_check_total libs (.float 0) = (.float 0, []) := rfl
  subst hfb
  subst hanoms
  constructor
  · rw [hval]
    rfl
  · have hexcl := excl_segments libs j its hits JSONAgent.type_error_total
      (by decide) (by decide) (by decide) (by decide)
    have h7 : (JSONAgent.type_check_total libs (JSONAgent.total_part libs j).1).2 = [] := by
      rw [hval]
      rfl
    have h8 : JSONAgent.suspicious_total
        (JSONAgent.type_check_total libs (JSONAgent.total_part libs j).1).1 = [] := by
      rw [hval]
      rfl
    intro hmem
    rw [h7, h8] at hmem
    simp only [List.append_nil, List.mem_append] at hmem
    rcases hmem with (((((hm | hm) | hm) | hm) | hm) | hm) | hm
    · exact hexcl.1 hm
    · exact hexcl.2.1 hm
    · exact hexcl.2.2.1 hm
    · rcases hsnd _ hm with he | he <;> simp [JSONAgent.map_amount, JSONAgent.map_total,
        JSONAgent.type_error_total] at he
    · exact hexcl.2.2.2.1 hm
    · exact hexcl.2.2.2.2 hm
    · split at hm <;> simp [JSONAgent.type_error_total] at hm

/-- C6 witness: the amended behaviour evaluated at
`{"total_amount": "abc"}`. -/
theorem c6_silent_coercion_failure_witness :
    dictGet [("order_id", PyVal.none), ("customer", PyVal.none), ("items", PyVal.list []),
             ("total_amount", PyVal.float 0), ("currency", PyVal.str "USD"),
             ("delivery_date", PyVal.none)] "total_amount" = some (.float 0)
    ∧ JSONAgent.type_error_total ∉
        ["Missing required field: order_id", "Missing required field: customer",
         "Missing required field: items", "Missing required field: currency",
         "Missing required field: delivery_date"] :=
  c6_silent_coercion_failure stubLibs [("total_amount", .str "abc")] _ _ "abc" rfl rfl rfl

/-- C3 counterexample: `{"items": [5]}` contains none of the total
keys, yet the extractor returns nothing at all — the non-mapping entry
of `items` makes `"sku" in 5` raise a `TypeError` — so the claim's
universal statement over all such mappings fails. -/
theorem c3_counterexample :
    dictGet [("items", PyVal.list [.int 5])] "total_amount" = Option.none
    ∧ dictGet [("items", PyVal.list [.int 5])] "amount" = Option.none
    ∧ dictGet [("items", PyVal.list [.int 5])] "total" = Option.none
    ∧ JSONAgent.map_to_flowbit_schema stubLibs [("items", PyVal.list [.int 5])]
      = .error "TypeError: argument is not iterable" :=
  ⟨rfl, rfl, rfl, rfl⟩

/-- C3 (amended): whenever extraction completes on a mapping that has
none of the keys `total_amount`, `amount`, `total`, the output's
`total_amount` is `None` and the anomaly list carries the
missing-required-field anomaly exactly once, with no other
total-amount-related anomaly (no alias-mapping, type-error or
negative-value anomaly). -/
theorem c3_missing_total (libs : PyLibs) (j : List (String × PyVal))
    (fb : List (String × PyVal)) (anoms : List String)
    (h : JSONAgent.map_to_flowbit_schema libs j = .ok (fb, anoms))
    (h1 : dictGet j "total_amount" = Option.none)
    (h2 : dictGet j "amount" = Option.none)
    (h3 : dictGet j "total" = Option.none) :
    dictGet fb "total_amount" = some PyVal.none
    ∧ anoms.count JSONAgent.missing_total = 1
    ∧ JSONAgent.map_amount ∉ anoms
    ∧ JSONAgent.map_total ∉ anoms
    ∧ JSONAgent.type_error_total ∉ anoms
    ∧ JSONAgent.negative_total ∉ anoms := by
  obtain ⟨its, hits, hfb, hanoms⟩ := map_to_flowbit_eq libs j fb anoms h
  have hval : JSONAgent.total_part libs j = (.none, [JSONAgent.missing_total]) := by
    unfold JSONAgent.total_part
    rw [h1, h2, h3]
  have h7 : (JSONAgent.type_check_total libs (JSONAgent.total_part libs j).1).2 = [] := by
    rw [hval]
    rfl
  have h8 : JSONAgent.suspicious_total
      (JSONAgent.type_check_total libs (JSONAgent.total_part libs j).1).1 = [] := by
    rw [hval]
    rfl
  have h4 : (JSONAgent.total_part libs j).2 = [JSONAgent.missing_total] := by
    rw [hval]
  subst hfb
  subst hanoms
  have hgen : ∀ t : String, t ∉ other_fixed_anoms →
      ¬ "Missing SKU in item: ".data <+: t.data →
      ¬ "Missing quantity in item: ".data <+: t.data →
      ¬ "Unknown currency: ".data <+: t.data →
      t ≠ JSONAgent.missing_total →
      t ∉ (JSONAgent.order_id_part j).2 ++ (JSONAgent.customer_part j).2 ++ its.2.2
          ++ (JSONAgent.total_part libs j).2 ++ (JSONAgent.currency_part j).2
          ++ (JSONAgent.date_part libs j).2
          ++ (JSONAgent.type_check_total libs (JSONAgent.total_part libs j).1).2
          ++ JSONAgent.suspicious_total
              (JSONAgent.type_check_total libs (JSONAgent.total_part libs j).1).1
          ++ (if (its.1.isEmpty && its.2.1) = true
              then ["Suspicious value: empty items array"] else []) := by
    intro t hfix hpa hpb hpc hne hmem
    have hexcl := excl_segments libs j its hits t hfix hpa hpb hpc
    rw [h7, h8, h4] at hmem
    simp only [List.append_nil, List.mem_append] at hmem
    rcases hmem with (((((hm | hm) | hm) | hm) | hm) | hm) | hm
    · exact hexcl.1 hm
    · exact hexcl.2.1 hm
    · exact hexcl.2.2.1 hm
    · simp only [List.mem_singleton] at hm
      exact hne hm
    · exact hexcl.2.2.2.1 hm
    · exact hexcl.2.2.2.2 hm
    · revert hm
      split <;> intro hm <;> simp only [List.mem_singleton, List.not_mem_nil] at hm
      subst hm
      simp [other_fixed_anoms] at hfix
  refine ⟨?_, ?_, ?_, ?_, ?_, ?_⟩
  · rw [hval]
    rfl
  · have hexcl := excl_segments libs j its hits JSONAgent.missing_total
      (by decide) (by decide) (by decide) (by decide)
    rw [h7, h8, h4]
    simp only [List.count_append, List.append_nil]
    rw [List.count_eq_zero.mpr hexcl.1, List.count_eq_zero.mpr hexcl.2.1,
        List.count_eq_zero.mpr hexcl.2.2.1, List.count_eq_zero.mpr hexcl.2.2.2.1,
        List.count_eq_zero.mpr hexcl.2.2.2.2]
    have h9 : (if (its.1.isEmpty && its.2.1) = true
        then ["Suspicious value: empty items array"] else []).count JSONAgent.missing_total
        = 0 := by
      split <;> simp [JSONAgent.missing_total]
    rw [h9]
    simp [JSONAgent.missing_total]
  · exact hgen JSONAgent.map_amount (by decide) (by decide) (by decide) (by decide) (by decide)
  · exact hgen JSONAgent.map_total (by decide) (by decide) (by decide) (by decide) (by decide)
  · exact hgen JSONAgent.type_error_total (by decide) (by decide) (by decide) (by decide) (by decide)
  · exact hgen JSONAgent.negative_total (by decide) (by decide) (by decide) (by decide) (by decide)

/-- C3 witness: the amended behaviour evaluated at the empty mapping. -/
theorem c3_missing_total_witness :
    dictGet [("order_id", PyVal.none), ("customer", PyVal.none), ("items", PyVal.list []),
             ("total_amount", PyVal.none), ("currency", PyVal.str "USD"),
             ("delivery_date", PyVal.none)] "total_amount" = some PyVal.none
    ∧ List.count JSONAgent.missing_total
        ["Missing required field: order_id", "Missing required field: customer",
         "Missing required field: items", "Missing required field: total_amount",
         "Missing required field: currency", "Missing required field: delivery_date"] = 1
    ∧ JSONAgent.map_amount ∉
        ["Missing required field: order_id", "Missing required field: customer",
         "Missing required field: items", "Missing required field: total_amount",
         "Missing required field: currency", "Missing required field: delivery_date"] := by
  have hc := c3_missing_total stubLibs [] _ _ rfl rfl rfl rfl
  exact ⟨hc.1, hc.2.1, hc.2.2.1⟩

/-- C5 counterexample: on scenario B's input the issue-type scorer
returns `Billing Inquiry` — its keyword list contains `refund`, while
no `Complaint` keyword occurs (`unacceptable` is only a *tone*
keyword) — refuting the claimed `issue_type = Complaint`. -/
theorem c5_counterexample :
    (EmailAgent.parse_email stubLibs c5str "t").issue_type = "Billing Inquiry"
    ∧ (EmailAgent.parse_email stubLibs c5str "t").issue_type ≠ "Complaint" := by
  have h : (EmailAgent.parse_email stubLibs c5str "t").issue_type = "Billing Inquiry" := rfl
  exact ⟨h, by rw [h]; decide⟩

/-- C5 (amended): scenario B's input classifies as format `Email`
(Correspondence) with urgency `High` and tone `threatening` (score 2
via `unacceptable` and `refund`, every other tone 0), but its issue
type is `Billing Inquiry`, not `Complaint`. -/
theorem c5_scenario_b (libs : PyLibs) (now : String)
    (h : libs.json_loads c5str = Option.none) :
    Classifier.determine_format libs (.str c5str) = "Email"
    ∧ (EmailAgent.parse_email libs c5str now).urgency = "High"
    ∧ (EmailAgent.parse_email libs c5str now).tone = "threatening"
    ∧ (EmailAgent.parse_email libs c5str now).issue_type = "Billing Inquiry" := by
  refine ⟨?_, rfl, rfl, rfl⟩
  show (if (libs.json_loads c5str).isSome then "JSON"
        else if Classifier.email_markers.any (fun m => strContains c5str m) then "Email"
        else "Unknown") = "Email"
  rw [h]
  rfl

/-- C5 witness: scenario B evaluated under the stub collaborators
(whose `json.loads` fails, as the real decoder does on this input). -/
theorem c5_scenario_b_witness :
    stubLibs.json_loads c5str = Option.none
    ∧ (Classifier.determine_format stubLibs (.str c5str) = "Email"
       ∧ (EmailAgent.parse_email stubLibs c5str "t").urgency = "High"
       ∧ (EmailAgent.parse_email stubLibs c5str "t").tone = "threatening"
       ∧ (EmailAgent.parse_email stubLibs c5str "t").issue_type = "Billing Inquiry") :=
  ⟨rfl, c5_scenario_b stubLibs "t" rfl⟩

/-- C8 counterexample: with a matching first chain and a second chain
whose condition evaluation raises (`"JSON" > 0` is a `TypeError`),
`process` propagates the exception and returns no list at all — the
matched chain's outcomes are lost, refuting the claim's universal
"returned value lists every triggered chain". -/
theorem c8_counterexample :
    ActionChain.check_all_conditions stubLibs [⟨"format", "eq", .str "JSON"⟩]
      (.dict [("format", .str "JSON")]) = .ok true
    ∧ ActionChain.process stubLibs c8cex_state "t" (.dict [("format", .str "JSON")])
      = .error "TypeError: unsupported comparison between instances" :=
  ⟨rfl, rfl⟩

/-- C8 (amended): provided every registered chain's condition
evaluation completes without raising, `process` returns exactly the
matching chains in registry order, each entry carrying the trigger
timestamp and the independent per-action outcomes (a raising action is
recorded as a `success = False` outcome by `exec_action` and the
remaining actions and chains still run). -/
theorem c8_error_isolation (libs : PyLibs) (st : ActionChain.ChainState)
    (now : String) (data : PyVal)
    (h : ∀ p ∈ st.action_chains,
      (ActionChain.check_all_conditions libs p.2.conditions data).isOk = true) :
    ActionChain.process libs st now data = .ok
      ((st.action_chains.filter (chain_matches libs data)).map
        (fun p => ⟨p.1, now, p.2.actions.filterMap
          (ActionChain.exec_action st.registered_actions data)⟩)) := by
  unfold ActionChain.process
  suffices hs : ∀ l : List (String × ActionChain.ChainDef),
      (∀ p ∈ l, (ActionChain.check_all_conditions libs p.2.conditions data).isOk = true) →
      ActionChain.process_chains libs st.registered_actions now data l
        = .ok ((l.filter (chain_matches libs data)).map
            (fun p => ⟨p.1, now, p.2.actions.filterMap
              (ActionChain.exec_action st.registered_actions data)⟩)) by
    exact hs st.action_chains h
  intro l
  induction l with
  | nil => intro _; rfl
  | cons p rest ih =>
    intro hl
    rcases p with ⟨cid, ch⟩
    have h1 := hl _ (List.mem_cons_self _ _)
    rcases hc : ActionChain.check_all_conditions libs ch.conditions data with e | b
    · rw [hc] at h1
      simp [Except.isOk, Except.toBool] at h1
    · unfold ActionChain.process_chains
      rw [hc, ih (fun q hq => hl q (List.mem_cons_of_mem _ hq))]
      cases b <;> simp [chain_matches, hc, List.filter_cons]

/-- C8 witness: the `boom` action's exception is recorded as a failure
outcome while `ok_step` and the second chain still execute. -/
theorem c8_error_isolation_witness :
    (c8w_state.action_chains.all
      (fun p => (ActionChain.check_all_conditions stubLibs p.2.conditions
        (.dict [("format", .str "JSON")])).isOk)) = true
    ∧ ActionChain.process stubLibs c8w_state "t" (.dict [("format", .str "JSON")])
      = .ok [⟨"cA", "t", [⟨"boom", false, Option.none, some "kaboom"⟩,
                          ⟨"ok_step", true, some (.int 1), Option.none⟩]⟩,
             ⟨"cB", "t", [⟨"ok_step", true, some (.int 1), Option.none⟩]⟩] := by
  constructor
  · rfl
  · rw [c8_error_isolation stubLibs c8w_state "t" (.dict [("format", .str "JSON")])
      (by decide)]
    rfl

/-- C9 counterexample: with a persistence collaborator whose
`store_metadata` raises, `route_to_agent` does not return its result
envelope — the exception propagates (the call has no surrounding
`try`), refuting the claimed fire-and-forget behaviour. -/
theorem c9_counterexample :
    Classifier.route_to_agent stubLibs (fun _ => .ok (.dict [])) (some fail_store)
      (.dict []) Option.none "t" = .error "db down" := rfl

/-- C9 (amended): a failing metadata persistence write makes the whole
routing call fail with that exception, for every input and
conversation id — persistence is not fire-and-forget (the
`store_extraction` and `store_result` calls are equally unguarded). -/
theorem c9_persistence_failure_propagates (libs : PyLibs)
    (pdf : PyVal → Except String PyVal) (ms : Classifier.MemoryStore)
    (data : PyVal) (cid : Option String) (now : String) (e : String)
    (h : ∀ m, ms.store_metadata m = .error e) :
    Classifier.route_to_agent libs pdf (some ms) data cid now = .error e := by
  have h1 : ∀ p, Classifier.store_meta_step (some ms) p = .error e := by
    intro p
    simp only [Classifier.store_meta_step, h]
    rfl
  unfold Classifier.route_to_agent
  simp only [h1, exc_bind_error]

/-- C9 witness: the failing collaborator evaluated on a concrete
mapping input. -/
theorem c9_persistence_failure_propagates_witness :
    (∀ m, fail_store.store_metadata m = .error "db down")
    ∧ Classifier.route_to_agent stubLibs (fun _ => .ok (.dict []))
        (some fail_store) (.dict [("a", .int 1)]) (some "cid-7") "t9" = .error "db down" :=
  ⟨fun _ => rfl,
   c9_persistence_failure_propagates stubLibs (fun _ => .ok (.dict [])) fail_store
     (.dict [("a", .int 1)]) (some "cid-7") "t9" "db down" (fun _ => rfl)⟩

end MultiAgent
